import Mathlib

set_option maxRecDepth 16000

/-!
Verification of the installation-orchestration core of
cloudify-cluster-setup (cfy_cluster_manager/main.py).

The Python source is shallowly embedded: every helper of main.py that the
claims touch is translated to an executable Lean function.  Remote hosts
are modelled by an oracle (`Remote`) giving, per node, the answers to the
rpm query, to the successive systemctl status probes of one probing
sequence, and to remote file-existence checks; the local machine is
modelled by `LocalEnv`.  Side effects (remote commands, uploads, local
file writes) are recorded in an `Action` trace.  Exceptions raised by the
Python code (ClusterInstallError, ValidationError, KeyError, ...) are
modelled with `Except Err`.
-/

namespace ClusterSetup

/-- Errors raised by the orchestrator.  The first five mirror the
ClusterInstallError messages of main.py; `validationError` mirrors
ValidationError raised by raise_errors_list (the aggregated error list is
kept as a list); `keyError`, `indexError`, `valueError` model the
corresponding unhandled Python lookup/parsing exceptions. -/
inductive Err where
  | failedInstalling (privateIp : String)
  | statusUnknown (unitName : String)
  | timeout (name : String)
  | rpmMismatch (privateIp : String)
  | sshError (privateIp : String)
  | yumMissing
  | validationError (errors : List String)
  | keyError (key : String)
  | indexError
  | valueError (value : String)
  deriving Repr, DecidableEq

/-- Observable side effects of a run.  Remote effects carry the name of
the node (or its private ip for testConnection) they act on. -/
inductive Action where
  | queryRpm (name : String)            -- rpm -qi cloudify-manager-install
  | queryStatus (name : String)         -- systemctl status <unit>
  | queryMarker (name : String)         -- file_exists of the .installed marker
  | runRemove (name : String)           -- cfy_manager remove -c <config>
  | resetFailed (name : String)         -- systemctl reset-failed <unit>
  | yumRemove (name : String)           -- yum remove -y cloudify-manager-install
  | archiveCert (name cert : String)    -- mv of a manager certificate file
  | testConnection (privateIp : String) -- open an SSH connection
  | putDir (name : String)              -- upload of the staging directory
  | downloadRpmRemote (name : String)   -- curl of the rpm on the remote host
  | yumInstallRemote (name : String)    -- yum install -y of the rpm remotely
  | copyConfig (name : String)          -- cp of the node config remotely
  | launchInstall (name : String)       -- systemd-run ... cfy_manager install
  | localRun (cmd : String)             -- local subprocess
  | writeLocal (path : String)          -- local file or directory creation
  | copyLocal (src dst : String)        -- local copy
  deriving Repr, DecidableEq

/-- True for effects executed on a remote host over SSH. -/
def Action.isRemote : Action → Bool
  | .queryRpm _ => true
  | .queryStatus _ => true
  | .queryMarker _ => true
  | .runRemove _ => true
  | .resetFailed _ => true
  | .yumRemove _ => true
  | .archiveCert _ _ => true
  | .testConnection _ => true
  | .putDir _ => true
  | .downloadRpmRemote _ => true
  | .yumInstallRemote _ => true
  | .copyConfig _ => true
  | .launchInstall _ => true
  | .localRun _ => false
  | .writeLocal _ => false
  | .copyLocal _ _ => false

/-- True for effects that create or modify local files. -/
def Action.isLocalWrite : Action → Bool
  | .writeLocal _ => true
  | .copyLocal _ _ => true
  | _ => false

/-! String helpers.  Python's str.split / os.path.basename /
os.path.splitext are re-implemented structurally over the character list
of the string so that they compute by kernel reduction. -/

/-- Split a character list on a separator character; mirrors Python
str.split with a one-character separator (an empty input gives one empty
field, like ''.split(sep)). -/
def splitChars (sep : Char) : List Char → List (List Char)
  | [] => [[]]
  | c :: cs =>
    let r := splitChars sep cs
    if c = sep then [] :: r
    else
      match r with
      | [] => [[c]]
      | h :: t => (c :: h) :: t

/-- Python str.split(sep) for a one-character separator. -/
def splitStr (sep : Char) (s : String) : List String :=
  (splitChars sep s.data).map String.mk

/-- The part of a node name before the first dash: node_name.split('-')[0]
in CfyNode.__init__. -/
def namePrefix (name : String) : String :=
  (splitStr '-' name).headD ""

/-- os.path.basename for slash-separated paths. -/
def pathBasename (p : String) : String :=
  (splitStr '/' p).getLastD ""

/-- Join character-list fields with a dot. -/
def joinDots : List (List Char) → List Char
  | [] => []
  | [x] => x
  | x :: xs => x ++ '.' :: joinDots xs

/-- The root part of os.path.splitext: everything before the last dot,
except that a name whose part before the last dot is all dots (such as
'.bashrc') has no extension. -/
def splitextRoot (s : String) : String :=
  let parts := splitChars '.' s.data
  if parts.length ≤ 1 then s
  else
    let root := joinDots parts.dropLast
    if root.all (fun c => c = '.') then s else String.mk root

/-- rpm_name computed in _rpm_was_installed and _install_cloudify_locally:
splitext(basename(rpm_download_link))[0]. -/
def rpmNameOf (link : String) : String :=
  splitextRoot (pathBasename link)

/-- Python str.startswith, implemented structurally. -/
def strStartsWith (s p : String) : Bool :=
  p.data.isPrefixOf s.data

/-! Data model. -/

/-- Mirror of class CfyNode (main.py lines 50-72), including the fields
set by the VM superclass constructor.  `typ`, `configPath` and `unitName`
are the derived fields computed in __init__; `installed` starts False. -/
structure CfyNode where
  privateIp : String
  publicIp : String
  keyFilePath : String
  username : String
  name : String
  hostname : String
  certPath : String
  keyPath : String
  typ : String
  installed : Bool
  providedConfigPath : Option String
  configPath : String
  unitName : String
  deriving Repr, DecidableEq

/-- BASE_CFY_DIR of main.py. -/
def BASE_CFY_DIR : String := "/etc/cloudify/"

/-- INITIAL_INSTALL_DIR of main.py: join('/etc/cloudify/' + '.installed'). -/
def INITIAL_INSTALL_DIR : String := "/etc/cloudify/.installed"

/-- CfyNode.__init__: the type is the part of the node name before the
first dash, the remote config path and the systemd unit name are derived
from it, and installed starts out False. -/
def mkCfyNode (privateIp publicIp keyFilePath username nodeName hostname
    certPath keyPath : String) (configFilePath : Option String) : CfyNode :=
  let typ := namePrefix nodeName
  { privateIp := privateIp
    publicIp := publicIp
    keyFilePath := keyFilePath
    username := username
    name := nodeName
    hostname := hostname
    certPath := certPath
    keyPath := keyPath
    typ := typ
    installed := false
    providedConfigPath := configFilePath
    configPath := BASE_CFY_DIR ++ nodeName ++ "_config.yaml"
    unitName := "cfy_cluster_manager_" ++ typ }

/-- Answer of the remote host to `rpm -qi cloudify-manager-install`
(run with ignore_failure): whether the command failed (rpm absent) and,
when it succeeded, result.stdout.strip(). -/
structure RpmAnswer where
  failed : Bool
  stdout : String
  deriving Repr, DecidableEq

/-- Remote-side oracle for one node.  `status i` is the exit code of the
i-th consecutive `systemctl status <unit>` probe of one probing sequence
(the sequence an orchestrator helper performs on this node); remote
command invocations other than these probes are assumed to succeed, their
effects being recorded in the action trace. -/
structure NodeRemote where
  rpm : RpmAnswer
  status : Nat → Nat
  fileExists : String → Bool

/-- The remote collaborator: per-node oracles keyed by node name, and
whether an SSH connection to a given private ip can be opened
(test_connection). -/
structure Remote where
  node : String → NodeRemote
  conn : String → Bool

/-- Local-machine oracle: local filesystem and local collaborator checks
(certificate validation helpers of utils.py are out-of-scope collaborators
and are modelled as boolean-returning oracles, per the spec). -/
structure LocalEnv where
  yumPresent : Bool
  currentHostIp : String
  initialInstallDirIsDir : Bool
  localCloudifyRpmInstalled : Bool
  clusterInstallDirExists : Bool
  pathExists : String → Bool
  certOk : String → Bool
  keyOk : String → Bool
  certKeyMatch : String → String → Bool
  signedBy : String → String → Bool
  sanOk : String → String → Bool

/-! The resume-discovery state machine
(_get_service_status_code, _wait_for_cloudify_current_installation,
_rpm_was_installed, _verify_service_installed,
_cloudify_was_previously_installed_successfully,
_verify_cloudify_installed_successfully). -/

/-- The while loop of _wait_for_cloudify_current_installation:
while status_code == 0 and retry_count <= 600: sleep(1); retry_count += 1;
status_code = _get_service_status_code(instance).
`q` is the index of the next status probe, `rc` the retry count, `status`
the current status code; the result is (status, retry count, next probe
index) at loop exit.  The loop body runs at most 601 times (rc = 0..600
satisfy the guard), so fuel 602 is never exhausted; fuel only makes the
recursion structural so that it computes by kernel reduction. -/
def waitLoopAux (r : Remote) (n : CfyNode) :
    Nat → Nat → Nat → Nat → Nat × Nat × Nat
  | 0, q, rc, status => (status, rc, q)
  | fuel + 1, q, rc, status =>
    if status = 0 ∧ rc ≤ 600 then
      waitLoopAux r n fuel (q + 1) (rc + 1) ((r.node n.name).status q)
    else (status, rc, q)

/-- _wait_for_cloudify_current_installation: run the poll loop starting at
probe index `q` and raise a timeout ClusterInstallError if the retry count
passed 600.  Each loop iteration performs one remote status probe, so the
trace records one queryStatus per iteration. -/
def waitForCurrentInstallation (r : Remote) (n : CfyNode) (q : Nat) :
    Except Err (Nat × List Action) :=
  let res := waitLoopAux r n 602 q 0 0
  if res.2.1 > 600 then .error (.timeout n.name)
  else .ok (res.2.2, List.replicate res.2.1 (Action.queryStatus n.name))

/-- The names_mapping dictionary of _verify_service_installed; lookup of
any other type raises KeyError. -/
def namesMapping : String → Option String
  | "postgresql" => some "database_service"
  | "rabbitmq" => some "queue_service"
  | "manager" => some "manager_service"
  | _ => none

/-- _verify_service_installed: does the instance-type .installed marker
file exist on the remote host. -/
def verifyServiceInstalled (r : Remote) (n : CfyNode) :
    Except Err (Bool × List Action) :=
  match namesMapping n.typ with
  | some svc =>
      .ok ((r.node n.name).fileExists (INITIAL_INSTALL_DIR ++ "/" ++ svc),
           [Action.queryMarker n.name])
  | none => .error (.keyError n.typ)

/-- _verify_cloudify_installed_successfully: one fresh status probe (at
probe index `q`); code 3 raises "Failed installing", code 4 resolves via
the marker file, any other code raises "status is unknown".  Returns the
marker result (the caller in _install_instances ignores it) and the next
probe index. -/
def verifyCloudifyInstalledSuccessfully (r : Remote) (n : CfyNode)
    (q : Nat) : Except Err (Bool × Nat × List Action) :=
  let s := (r.node n.name).status q
  if s = 3 then .error (.failedInstalling n.privateIp)
  else if s = 4 then
    match verifyServiceInstalled r n with
    | .ok (b, acts) => .ok (b, q + 1, Action.queryStatus n.name :: acts)
    | .error e => .error e
  else .error (.statusUnknown n.unitName)

/-- _cloudify_was_previously_installed_successfully: probe the unit status
(probe index 0 of this node's probing sequence); code 0 waits for the
running installation then re-verifies; code 3 removes the failed
installation (cfy_manager remove, systemctl reset-failed) and reports not
installed; code 4 resolves via the marker file; any other code raises
"status is unknown".  The verbose flag only alters the remote command
text and is omitted. -/
def cloudifyWasPreviouslyInstalledSuccessfully (r : Remote) (n : CfyNode) :
    Except Err (Bool × List Action) :=
  let s := (r.node n.name).status 0
  let acts0 := [Action.queryStatus n.name]
  if s = 0 then
    match waitForCurrentInstallation r n 1 with
    | .error e => .error e
    | .ok (q, wacts) =>
      match verifyCloudifyInstalledSuccessfully r n q with
      | .ok (b, _, vacts) => .ok (b, acts0 ++ wacts ++ vacts)
      | .error e => .error e
  else if s = 3 then
    .ok (false, acts0 ++ [Action.runRemove n.name, Action.resetFailed n.name])
  else if s = 4 then
    match verifyServiceInstalled r n with
    | .ok (b, macts) => .ok (b, acts0 ++ macts)
    | .error e => .error e
  else .error (.statusUnknown n.unitName)

/-- _rpm_was_installed: rpm -qi failing means not installed; a successful
query whose stripped stdout matches the rpm name derived from the
download link (or override) means installed; any other successful query
raises the "already installed with a different version" error. -/
def rpmWasInstalled (r : Remote) (n : CfyNode) (rpmDownloadLink : String)
    (override : Bool) : Except Err (Bool × List Action) :=
  let rpmName := rpmNameOf rpmDownloadLink
  let res := (r.node n.name).rpm
  if res.failed then .ok (false, [Action.queryRpm n.name])
  else if res.stdout = rpmName ∨ override = true then
    .ok (true, [Action.queryRpm n.name])
  else .error (.rpmMismatch n.privateIp)

/-- The six certificate files archived by _remove_cloudify_installation
on manager nodes. -/
def certsPathsList : List String :=
  ["cloudify_external_cert.pem", "cloudify_external_key.pem",
   "cloudify_internal_ca_cert.pem", "cloudify_external_ca_cert.pem",
   "cloudify_internal_cert.pem", "cloudify_internal_key.pem"]

/-- _remove_cloudify_installation: run cfy_manager remove, additionally
yum-remove the rpm when the local INITIAL_INSTALL_DIR is not a directory,
timestamp-archive the existing manager certificates, and reset the
instance's installed flag to False. -/
def removeCloudifyInstallation (env : LocalEnv) (r : Remote) (n : CfyNode) :
    CfyNode × List Action :=
  let acts1 := [Action.runRemove n.name]
  let acts2 := if env.initialInstallDirIsDir then []
               else [Action.yumRemove n.name]
  let acts3 :=
    if n.typ = "manager" then
      certsPathsList.filterMap fun c =>
        if (r.node n.name).fileExists (BASE_CFY_DIR ++ "ssl/" ++ c) then
          some (Action.archiveCert n.name c)
        else none
    else []
  ({ n with installed := false }, acts1 ++ acts2 ++ acts3)

/-! _mark_installed_instances (resume discovery over the ordered
instances dictionary). -/

/-- Parameters of a discovery pass. -/
structure MarkCtx where
  rpmDownloadLink : String
  override : Bool
  deriving Repr, DecidableEq

/-- The per-instance body of the loop in _mark_installed_instances.
Returns the node with its (possibly) updated installed flag, whether the
loop continues to the next instance (False models the early `return`),
and the recorded effects.  The rpm-absent branch leaves the node record
untouched and stops; a successful previous installation sets the flag to
True, then override removes the installation again (resetting the flag);
an unsuccessful one sets the flag to False and stops. -/
def markNode (env : LocalEnv) (r : Remote) (ctx : MarkCtx) (n : CfyNode) :
    Except Err (CfyNode × Bool × List Action) :=
  match rpmWasInstalled r n ctx.rpmDownloadLink ctx.override with
  | .error e => .error e
  | .ok (false, acts) => .ok (n, false, acts)
  | .ok (true, acts) =>
    match cloudifyWasPreviouslyInstalledSuccessfully r n with
    | .error e => .error e
    | .ok (inst, cacts) =>
      if inst then
        if ctx.override then
          let res := removeCloudifyInstallation env r { n with installed := true }
          .ok (res.1, true, acts ++ cacts ++ res.2)
        else .ok ({ n with installed := true }, true, acts ++ cacts)
      else .ok ({ n with installed := false }, false, acts ++ cacts)

/-- The inner (per-tier) loop of _mark_installed_instances: process the
nodes of one tier in order until one of them stops the discovery.  The
Bool result is True when every node continued. -/
def markList (env : LocalEnv) (r : Remote) (ctx : MarkCtx) :
    List CfyNode → Except Err (List CfyNode × Bool × List Action)
  | [] => .ok ([], true, [])
  | n :: ns =>
    match markNode env r ctx n with
    | .error e => .error e
    | .ok (nr, false, acts) => .ok (nr :: ns, false, acts)
    | .ok (nr, true, acts) =>
      match markList env r ctx ns with
      | .error e => .error e
      | .ok (nsr, cont, acts2) => .ok (nr :: nsr, cont, acts ++ acts2)

/-- _mark_installed_instances: process the tiers of the ordered instances
dictionary in order, stopping (the early `return`) as soon as a node does
not continue.  Nodes after the stopping point keep their incoming
installed flag (False after construction, i.e. NOT_INSTALLED). -/
def markDict (env : LocalEnv) (r : Remote) (ctx : MarkCtx) :
    List (String × List CfyNode) →
      Except Err (List (String × List CfyNode) × Bool × List Action)
  | [] => .ok ([], true, [])
  | (t, ns) :: rest =>
    match markList env r ctx ns with
    | .error e => .error e
    | .ok (nsr, false, acts) => .ok ((t, nsr) :: rest, false, acts)
    | .ok (nsr, true, acts) =>
      match markDict env r ctx rest with
      | .error e => .error e
      | .ok (restr, cont, acts2) => .ok ((t, nsr) :: restr, cont, acts ++ acts2)

/-! _install_instances (the install-and-verify loop). -/

/-- The per-instance body of _install_instances.  An instance already
marked installed is skipped.  Otherwise, unless the instance is the local
host or this is a later tier of a three-nodes cluster, the staging
directory is uploaded and the rpm is downloaded and installed remotely
when absent; then the node's config file is copied into place, the
install command is launched as a systemd-run unit, and
_verify_cloudify_installed_successfully is called — its boolean result is
discarded, only its exceptions propagate.  The node's installed flag is
never modified here, so only the action trace is returned. -/
def installNode (env : LocalEnv) (r : Remote) (rpmDownloadLink : String)
    (threeNodesNotFirstRound : Bool) (n : CfyNode) :
    Except Err (List Action) :=
  if n.installed then .ok []
  else
    let staging : Except Err (List Action) :=
      if n.privateIp = env.currentHostIp ∨ threeNodesNotFirstRound = true then
        .ok []
      else
        match rpmWasInstalled r n rpmDownloadLink false with
        | .error e => .error e
        | .ok (true, acts) => .ok (Action.putDir n.name :: acts)
        | .ok (false, acts) =>
          .ok (Action.putDir n.name :: acts ++
               [Action.downloadRpmRemote n.name, Action.yumInstallRemote n.name])
    match staging with
    | .error e => .error e
    | .ok sacts =>
      match verifyCloudifyInstalledSuccessfully r n 0 with
      | .error e => .error e
      | .ok (_, _, vacts) =>
        .ok (sacts ++ [Action.copyConfig n.name, Action.launchInstall n.name]
             ++ vacts)

/-- The inner loop of _install_instances over one tier. -/
def installList (env : LocalEnv) (r : Remote) (rpmDownloadLink : String)
    (threeNodesNotFirstRound : Bool) :
    List CfyNode → Except Err (List Action)
  | [] => .ok []
  | n :: ns =>
    match installNode env r rpmDownloadLink threeNodesNotFirstRound n with
    | .error e => .error e
    | .ok acts =>
      match installList env r rpmDownloadLink threeNodesNotFirstRound ns with
      | .error e => .error e
      | .ok acts2 => .ok (acts ++ acts2)

/-- The outer loop of _install_instances: tiers in order, with
three_nodes_not_first_round = using_three_nodes and i > 0. -/
def installDictFrom (env : LocalEnv) (r : Remote) (rpmDownloadLink : String)
    (usingThreeNodes : Bool) :
    Nat → List (String × List CfyNode) → Except Err (List Action)
  | _, [] => .ok []
  | i, (_, ns) :: rest =>
    let tnf := usingThreeNodes && decide (0 < i)
    match installList env r rpmDownloadLink tnf ns with
    | .error e => .error e
    | .ok acts =>
      match installDictFrom env r rpmDownloadLink usingThreeNodes (i + 1) rest with
      | .error e => .error e
      | .ok acts2 => .ok (acts ++ acts2)

/-- _install_instances. -/
def installInstances (env : LocalEnv) (r : Remote) (rpmDownloadLink : String)
    (usingThreeNodes : Bool) (d : List (String × List CfyNode)) :
    Except Err (List Action) :=
  installDictFrom env r rpmDownloadLink usingThreeNodes 0 d

/-! The declarative configuration and topology building
(_get_cfy_node, _get_instances_ordered_dict,
_generate_three_nodes_cluster_dict, _generate_general_cluster_dict,
_sort_instances_dict). -/

/-- The ldap section of the config.  A YAML-generated config carries both
keys with string values; an empty string is Python-falsy. -/
structure LdapConfig where
  server : String
  caCert : String
  deriving Repr, DecidableEq

/-- One entry of existing_vms.  Optional fields model dictionary keys read
with .get (absent gives None); an empty string value is also falsy.
config_path is a plain path in general mode (configPath) and a nested
dictionary in three-nodes mode (configPath3, whose absence makes the
bracket lookup vm_dict['config_path'] raise KeyError). -/
structure VmDict where
  privateIp : Option String
  publicIp : Option String
  hostname : Option String
  certPath : Option String
  keyPath : Option String
  configPath : Option String
  configPath3 : Option (List (String × Option String))
  deriving Repr, DecidableEq

/-- The cluster install configuration document.  Option models an absent
key (read with .get); the ldap section is read with bracket access during
validation, so its absence raises KeyError there. -/
structure Config where
  existingVms : List (String × VmDict)
  sshKeyPath : Option String
  sshUser : Option String
  cloudifyLicensePath : Option String
  managerRpmDownloadLink : Option String
  caCertPath : Option String
  externalDbConfiguration : Option (List (String × Option String))
  ldap : Option LdapConfig
  loadBalancerIp : Option String
  deriving Repr, DecidableEq

/-- Python truthiness of an optional string: None and '' are falsy. -/
def truthy : Option String → Bool
  | none => false
  | some s => s ≠ ""

/-- dict.get on a string-keyed association list (None when absent). -/
def lookupStr (l : List (String × Option String)) (k : String) :
    Option String :=
  match l.find? (fun p => p.1 = k) with
  | some p => p.2
  | none => none

/-- CERTS_DIR of main.py. -/
def CERTS_DIR : String := "/tmp/cloudify_cluster_manager/certs"

/-- _using_provided_certificates: config.get('ca_cert_path') is truthy. -/
def usingProvidedCertificates (cfg : Config) : Bool :=
  truthy cfg.caCertPath

/-- _get_external_db_config is config.get('external_db_configuration');
its truthiness gates the postgresql tier. -/
def hasExternalDb (cfg : Config) : Bool :=
  cfg.externalDbConfiguration.isSome

/-- The CfyNode built by _get_cfy_node: per-node staged certificate
paths, ssh material from the config, and the given name and config
path. -/
def builtNode (cfg : Config) (vd : VmDict) (nodeName : String)
    (configPath : Option String) : CfyNode :=
  mkCfyNode (vd.privateIp.getD "") (vd.publicIp.getD "")
    (cfg.sshKeyPath.getD "") (cfg.sshUser.getD "") nodeName
    (vd.hostname.getD "")
    (CERTS_DIR ++ "/" ++ nodeName ++ "_cert.pem")
    (CERTS_DIR ++ "/" ++ nodeName ++ "_key.pem") configPath

/-- The certificate-staging copies _get_cfy_node performs when a CA path
was provided. -/
def copyCertActs (cfg : Config) (vd : VmDict) (nodeName : String) :
    List Action :=
  if usingProvidedCertificates cfg then
    [Action.copyLocal (vd.certPath.getD "")
       (CERTS_DIR ++ "/" ++ nodeName ++ "_cert.pem"),
     Action.copyLocal (vd.keyPath.getD "")
       (CERTS_DIR ++ "/" ++ nodeName ++ "_key.pem")]
  else []

/-- _get_cfy_node: stage the provided certificate pair when a CA path was
supplied, build the CfyNode, and test the SSH connection when requested
(raising ClusterInstallError when it cannot be opened).  expanduser is
modelled as the identity. -/
def getCfyNode (r : Remote) (cfg : Config) (vd : VmDict) (nodeName : String)
    (configPath : Option String) (validateConnection : Bool) :
    Except Err (CfyNode × List Action) :=
  let copyActs := copyCertActs cfg vd nodeName
  let vm := builtNode cfg vd nodeName configPath
  if validateConnection then
    if r.conn vm.privateIp then
      .ok (vm, copyActs ++ [Action.testConnection vm.privateIp])
    else .error (.sshError vm.privateIp)
  else .ok (vm, copyActs)

/-- _get_instances_ordered_dict: the fixed ordered tier template, with
the postgresql key popped when an external DB is configured. -/
def getInstancesOrderedDict (cfg : Config) : List (String × List CfyNode) :=
  if hasExternalDb cfg then [("rabbitmq", []), ("manager", [])]
  else [("postgresql", []), ("rabbitmq", []), ("manager", [])]

/-- The inner loop of _generate_three_nodes_cluster_dict for one tier:
for i, node_dict in enumerate(existing_nodes_list), build the node named
node_type + '-' + str(i + 1) with the tier-specific config path taken
from node_dict['config_path'] (bracket access: KeyError when absent). -/
def genTierNodes (r : Remote) (cfg : Config) (nodeType : String)
    (validate : Bool) : Nat → List VmDict → Except Err (List CfyNode × List Action)
  | _, [] => .ok ([], [])
  | i, vd :: rest =>
    match vd.configPath3 with
    | none => .error (.keyError "config_path")
    | some cp =>
      match getCfyNode r cfg vd (nodeType ++ "-" ++ toString (i + 1))
          (lookupStr cp (nodeType ++ "_config_path")) validate with
      | .error e => .error e
      | .ok (vm, acts) =>
        match genTierNodes r cfg nodeType validate (i + 1) rest with
        | .error e => .error e
        | .ok (vms, acts2) => .ok (vm :: vms, acts ++ acts2)

/-- The outer loop of _generate_three_nodes_cluster_dict: every declared
instance is replicated into each tier; validate_connection is True only
during the first tier and is set to False afterwards. -/
def genThreeTiers (r : Remote) (cfg : Config) (vms : List VmDict) :
    Bool → List (String × List CfyNode) →
      Except Err (List (String × List CfyNode) × List Action)
  | _, [] => .ok ([], [])
  | validate, (t, _) :: rest =>
    match genTierNodes r cfg t validate 0 vms with
    | .error e => .error e
    | .ok (ns, acts) =>
      match genThreeTiers r cfg vms false rest with
      | .error e => .error e
      | .ok (restr, acts2) => .ok ((t, ns) :: restr, acts ++ acts2)

/-- _generate_three_nodes_cluster_dict. -/
def generateThreeNodesClusterDict (r : Remote) (cfg : Config) :
    Except Err (List (String × List CfyNode) × List Action) :=
  genThreeTiers r cfg (cfg.existingVms.map (fun p => p.2)) true
    (getInstancesOrderedDict cfg)

/-- Append a node to the tier list stored under key `k`; none models the
KeyError raised by instances_dict[new_vm.type] when the key is absent. -/
def appendToTier (k : String) (n : CfyNode) :
    List (String × List CfyNode) → Option (List (String × List CfyNode))
  | [] => none
  | (t, ns) :: rest =>
    if t = k then some ((t, ns ++ [n]) :: rest)
    else
      match appendToTier k n rest with
      | some restr => some ((t, ns) :: restr)
      | none => none

/-- The sort key of _sort_instances_dict:
int(x.name.rsplit('-', 1)[1]); a name without a dash raises IndexError
and a non-numeric suffix raises ValueError. -/
def ordinalKey (name : String) : Except Err Nat :=
  let parts := splitStr '-' name
  if parts.length ≤ 1 then .error .indexError
  else
    match (parts.getLastD "").toNat? with
    | some k => .ok k
    | none => .error (.valueError name)

/-- Stable insertion by numeric key (Python list.sort is stable). -/
def insertByKey (x : Nat × CfyNode) :
    List (Nat × CfyNode) → List (Nat × CfyNode)
  | [] => [x]
  | y :: ys => if x.1 < y.1 then x :: y :: ys else y :: insertByKey x ys

/-- Compute the sort keys of a tier's nodes. -/
def keyedNodes : List CfyNode → Except Err (List (Nat × CfyNode))
  | [] => .ok []
  | n :: ns =>
    match ordinalKey n.name with
    | .error e => .error e
    | .ok k =>
      match keyedNodes ns with
      | .error e => .error e
      | .ok rest => .ok ((k, n) :: rest)

/-- Sort one tier by ordinal suffix (only applied to tiers with more than
one node, as in _sort_instances_dict). -/
def sortTier (ns : List CfyNode) : Except Err (List CfyNode) :=
  if ns.length ≤ 1 then .ok ns
  else
    match keyedNodes ns with
    | .error e => .error e
    | .ok keyed =>
      .ok ((keyed.foldl (fun acc x => insertByKey x acc) []).map
        (fun p => p.2))

/-- _sort_instances_dict over the whole dictionary. -/
def sortInstancesDict : List (String × List CfyNode) →
    Except Err (List (String × List CfyNode))
  | [] => .ok []
  | (t, ns) :: rest =>
    match sortTier ns with
    | .error e => .error e
    | .ok nsr =>
      match sortInstancesDict rest with
      | .error e => .error e
      | .ok restr => .ok ((t, nsr) :: restr)

/-- The loop of _generate_general_cluster_dict: each declared instance is
built (always testing the connection) and appended to the tier named by
its name prefix; a prefix that is not a key of the ordered dictionary
raises KeyError. -/
def genGeneralLoop (r : Remote) (cfg : Config) :
    List (String × VmDict) → List (String × List CfyNode) →
      Except Err (List (String × List CfyNode) × List Action)
  | [], d => .ok (d, [])
  | (name, vd) :: rest, d =>
    match getCfyNode r cfg vd name vd.configPath true with
    | .error e => .error e
    | .ok (vm, acts) =>
      match appendToTier vm.typ vm d with
      | none => .error (.keyError vm.typ)
      | some d2 =>
        match genGeneralLoop r cfg rest d2 with
        | .error e => .error e
        | .ok (dr, acts2) => .ok (dr, acts ++ acts2)

/-- _generate_general_cluster_dict. -/
def generateGeneralClusterDict (r : Remote) (cfg : Config) :
    Except Err (List (String × List CfyNode) × List Action) :=
  match genGeneralLoop r cfg cfg.existingVms (getInstancesOrderedDict cfg) with
  | .error e => .error e
  | .ok (d, acts) =>
    match sortInstancesDict d with
    | .error e => .error e
    | .ok dr => .ok (dr, acts)

/-! Configuration validation (_check_value_provided, _check_path,
_validate_config_paths, _validate_existing_vms,
_validate_external_db_config, _validate_ldap_certificate_setting,
_validate_config).  All checked errors are appended to one growing list;
only the ldap section and the three-nodes config_path dictionary are read
with bracket access and can raise. -/

/-- The ' for instance X' suffix of validation messages. -/
def suffixFor : Option String → String
  | some vm => " for instance " ++ vm
  | none => ""

/-- _check_value_provided. -/
def checkValueProvided (v : Option String) (key : String)
    (vmName : Option String) (errs : List String) : Bool × List String :=
  if truthy v then (true, errs)
  else (false, errs ++ [key ++ " is not provided" ++ suffixFor vmName])

/-- _check_path: a provided value whose (expanduser-expanded, modelled as
identity) path does not exist appends an error.  The write-back of the
expanded path into the dictionary is a no-op under that modelling. -/
def checkPath (env : LocalEnv) (v : Option String) (key : String)
    (vmName : Option String) (errs : List String) : Bool × List String :=
  match checkValueProvided v key vmName errs with
  | (false, errs2) => (false, errs2)
  | (true, errs2) =>
    let p := v.getD ""
    if env.pathExists p then (true, errs2)
    else (false, errs2 ++ ["Path " ++ p ++ " for key " ++ key ++
          " does not exist" ++ suffixFor vmName])

/-- The mutable outer state of the validate_config_path closure. -/
structure CPAcc where
  usingConfigPaths : Bool
  errorAdded : Bool
  errs : List String
  deriving Repr, DecidableEq

/-- The validate_config_path closure body of _validate_config_paths. -/
def validateOneConfigPath (env : LocalEnv) (vmName : String)
    (cp : Option String) (acc : CPAcc) : CPAcc :=
  if truthy cp then
    let p := cp.getD ""
    if env.pathExists p then { acc with usingConfigPaths := true }
    else { acc with errs := acc.errs ++
           ["The config path " ++ p ++ " for " ++ vmName ++
            " does not exist."] }
  else
    if acc.usingConfigPaths && !acc.errorAdded then
      { acc with
        errs := acc.errs ++
          ["You must provide the config.yaml file for all instances or none of them."],
        errorAdded := true }
    else acc

/-- _validate_config_paths: in three-nodes mode each vm's config_path is
a dictionary iterated value by value (bracket access, KeyError when
absent); in general mode it is a single optional path. -/
def validateConfigPaths (env : LocalEnv) (usingThree : Bool) :
    List (String × VmDict) → CPAcc → Except Err CPAcc
  | [], acc => .ok acc
  | (vmName, vd) :: rest, acc =>
    if usingThree then
      match vd.configPath3 with
      | none => .error (.keyError "config_path")
      | some cps =>
        validateConfigPaths env usingThree rest
          (cps.foldl (fun a p => validateOneConfigPath env vmName p.2 a) acc)
    else
      validateConfigPaths env usingThree rest
        (validateOneConfigPath env vmName vd.configPath acc)

/-- check_cert_path of utils.py as a collaborator: the openssl run is a
local subprocess whose verdict comes from the certOk oracle. -/
def checkCertPathW (env : LocalEnv) (cert : String) (errs : List String) :
    Bool × List String :=
  if env.certOk cert then (true, errs)
  else (false, errs ++ ["The certificate file " ++ cert ++ " is invalid"])

/-- check_key_path of utils.py as a collaborator. -/
def checkKeyPathW (env : LocalEnv) (key : String) (errs : List String) :
    Bool × List String :=
  if env.keyOk key then (true, errs)
  else (false, errs ++ ["The key file " ++ key ++ " is invalid"])

/-- check_cert_key_match of utils.py as a collaborator. -/
def checkCertKeyMatchW (env : LocalEnv) (cert key : String)
    (errs : List String) : Bool × List String :=
  match checkKeyPathW env key errs with
  | (false, errs2) => (false, errs2)
  | (true, errs2) =>
    if env.certKeyMatch cert key then (true, errs2)
    else (false, errs2 ++ ["Provided Key " ++ key ++
          " does not match the provided certificate " ++ cert])

/-- check_signed_by of utils.py as a collaborator. -/
def checkSignedByW (env : LocalEnv) (ca cert : String)
    (errs : List String) : List String :=
  if env.signedBy ca cert then errs
  else errs ++ ["Provided certificate " ++ cert ++
        " was not signed by provided CA " ++ ca]

/-- check_san of utils.py as a collaborator (the allowed-list suffix of
the message is elided). -/
def checkSanW (env : LocalEnv) (vmName cert : String)
    (errs : List String) : List String :=
  if env.sanOk vmName cert then errs
  else errs ++ ["The certificate " ++ cert ++
        " does not match the instance " ++ vmName ++ "."]

/-- The per-vm body of the loop in _validate_existing_vms. -/
def validateOneVm (env : LocalEnv) (cfg : Config) (caOk : Bool)
    (errs : List String) (p : String × VmDict) : List String :=
  let vmName := p.1
  let vd := p.2
  let errs := if truthy vd.privateIp then errs
              else errs ++ ["private_ip should be provided for " ++ vmName]
  if caOk then
    let kp := checkPath env vd.keyPath "key_path" (some vmName) errs
    let cp := checkPath env vd.certPath "cert_path" (some vmName) kp.2
    if cp.1 then
      let cert := vd.certPath.getD ""
      let cv := checkCertPathW env cert cp.2
      if cv.1 then
        let errs := if kp.1 then
            (checkCertKeyMatchW env cert (vd.keyPath.getD "") cv.2).2
          else cv.2
        let errs := checkSignedByW env (cfg.caCertPath.getD "") cert errs
        checkSanW env vmName cert errs
      else cv.2
    else cp.2
  else errs

/-- _validate_existing_vms. -/
def validateExistingVms (env : LocalEnv) (cfg : Config) (usingThree : Bool)
    (errs : List String) : Except Err (List String) :=
  let ca :=
    if usingProvidedCertificates cfg then
      checkPath env cfg.caCertPath "ca_cert_path" none errs
    else (false, errs)
  match validateConfigPaths env usingThree cfg.existingVms
      ⟨false, false, ca.2⟩ with
  | .error e => .error e
  | .ok acc =>
    .ok (cfg.existingVms.foldl (validateOneVm env cfg ca.1) acc.errs)

/-- _validate_external_db_config: every provided key's value must be
truthy, then ca_path is checked as a path (appending its 'not provided'
message a second time when absent, as the source does). -/
def validateExternalDbConfig (env : LocalEnv) (cfg : Config)
    (errs : List String) : List String :=
  match cfg.externalDbConfiguration with
  | none => errs
  | some edb =>
    let errs := edb.foldl
      (fun a kv => (checkValueProvided kv.2 kv.1 none a).2) errs
    (checkPath env (lookupStr edb "ca_path") "ca_path" none errs).2

/-- _validate_ldap_certificate_setting: the source reads config['ldap']
and config['ldap']['server'] with bracket access, so a config without an
ldap section raises KeyError instead of contributing to the error list. -/
def validateLdapCertificateSetting (env : LocalEnv) (cfg : Config)
    (errs : List String) : Except Err (List String) :=
  match cfg.ldap with
  | none => .error (.keyError "ldap")
  | some l =>
    let ldaps := strStartsWith l.server "ldaps://"
    let caCert : Bool := l.caCert != ""
    let errs :=
      if ldaps && !caCert then
        errs ++ ["When using ldaps a CA certificate must be provided."]
      else if caCert && !ldaps then
        errs ++ ["When not using ldaps a CA certificate must not be provided."]
      else errs
    let errs :=
      if caCert && ldaps then
        (checkPath env (some l.caCert) "ca_cert" none errs).2
      else errs
    .ok errs

/-- _validate_config: run every validation phase, accumulating errors,
and raise one ValidationError carrying the whole list when it is
non-empty. -/
def validateConfig (env : LocalEnv) (cfg : Config) (usingThree : Bool) :
    Except Err Unit :=
  let e1 := (checkPath env cfg.sshKeyPath "ssh_key_path" none []).2
  let e2 := (checkValueProvided cfg.sshUser "ssh_user" none e1).2
  let e3 := (checkPath env cfg.cloudifyLicensePath "cloudify_license_path"
             none e2).2
  let e4 := (checkValueProvided cfg.managerRpmDownloadLink
             "manager_rpm_download_link" none e3).2
  match validateExistingVms env cfg usingThree e4 with
  | .error e => .error e
  | .ok e5 =>
    let e6 := validateExternalDbConfig env cfg e5
    match validateLdapCertificateSetting env cfg e6 with
    | .error e => .error e
    | .ok e7 =>
      if e7 = [] then .ok () else .error (.validationError e7)

/-! The install entry point (install of main.py) and the staging phase it
drives before the install loop.  Staging effects are recorded coarsely:
one action per file write, local command, or copy the source performs. -/

/-- CLUSTER_INSTALL_DIR of main.py. -/
def CLUSTER_INSTALL_DIR : String := "/tmp/cloudify_cluster_manager"

/-- _create_cluster_install_directory: archive a pre-existing staging
directory by renaming, then create it. -/
def createClusterInstallDirectoryActs (env : LocalEnv) : List Action :=
  (if env.clusterInstallDirExists then
    [Action.localRun "mv cloudify_cluster_manager"] else [])
  ++ [Action.writeLocal CLUSTER_INSTALL_DIR]

/-- _install_cloudify_locally: download and install the rpm locally
unless it is already installed. -/
def installCloudifyLocallyActs (env : LocalEnv) : List Action :=
  if env.localCloudifyRpmInstalled then []
  else [Action.localRun "curl rpm", Action.localRun "yum install rpm"]

/-- _generate_certs: one generate-test-cert run (plus renames) per
instance of every tier, then the CA aggregation into the staging certs
directory. -/
def generateCertsActs (d : List (String × List CfyNode)) : List Action :=
  (d.map (fun p => p.2.map
    (fun n => Action.localRun ("generate-test-cert " ++ n.name)))).flatten
  ++ [Action.copyLocal "ca.crt" "ca.pem",
      Action.copyLocal ".cloudify-test-ca" CERTS_DIR]

/-- _handle_certificates: copy the provided CA or generate certificates,
then stage the external DB CA when one is configured. -/
def handleCertificatesActs (cfg : Config)
    (d : List (String × List CfyNode)) : List Action :=
  (if usingProvidedCertificates cfg then
    [Action.copyLocal (cfg.caCertPath.getD "") (CERTS_DIR ++ "/ca.pem")]
  else generateCertsActs d)
  ++ (match cfg.externalDbConfiguration with
      | some edb => [Action.copyLocal (lookupStr edb "ca_path" |>.getD "")
                     (CERTS_DIR ++ "/external_db_ca.pem")]
      | none => [])

/-- The nodes of a tier of the ordered dictionary ([] when absent; the
source only reads tiers it knows to be present). -/
def tierNodes (d : List (String × List CfyNode)) (k : String) :
    List CfyNode :=
  match d.find? (fun p => p.1 = k) with
  | some p => p.2
  | none => []

/-- One rendered-or-copied config file per node of a tier
(_prepare_postgresql_config_files and friends all end in
_create_config_file). -/
def tierConfigActs (d : List (String × List CfyNode)) (k : String) :
    List Action :=
  (tierNodes d k).map fun n =>
    Action.writeLocal (CLUSTER_INSTALL_DIR ++ "/config_files/" ++
      n.name ++ "_config.yaml")

/-- _prepare_config_files: create the config_files directory, then write
the postgresql configs (unless an external DB is used), the rabbitmq
configs and the manager configs. -/
def prepareConfigFilesActs (cfg : Config)
    (d : List (String × List CfyNode)) : List Action :=
  [Action.writeLocal (CLUSTER_INSTALL_DIR ++ "/config_files")]
  ++ (if hasExternalDb cfg then [] else tierConfigActs d "postgresql")
  ++ tierConfigActs d "rabbitmq"
  ++ tierConfigActs d "manager"

/-- The staging block guarded by (not previous_installation) or override
in install: create the staging directory, stage the license, install the
rpm locally, handle certificates, and prepare the config files. -/
def stagingActs (env : LocalEnv) (cfg : Config)
    (d : List (String × List CfyNode)) : List Action :=
  createClusterInstallDirectoryActs env
  ++ [Action.copyLocal (cfg.cloudifyLicensePath.getD "")
      (CLUSTER_INSTALL_DIR ++ "/license.yaml")]
  ++ installCloudifyLocallyActs env
  ++ handleCertificatesActs cfg d
  ++ prepareConfigFilesActs cfg d

/-- _previous_installation: the rpm check on the first postgresql
instance, or the first rabbitmq instance when the postgresql tier was
popped; indexing an empty tier raises IndexError. -/
def firstInstance (d : List (String × List CfyNode)) : Except Err CfyNode :=
  match d.find? (fun p => p.1 = "postgresql") with
  | some (_, n :: _) => .ok n
  | some (_, []) => .error .indexError
  | none =>
    match d.find? (fun p => p.1 = "rabbitmq") with
    | some (_, n :: _) => .ok n
    | some (_, []) => .error .indexError
    | none => .error (.keyError "rabbitmq")

/-- install of main.py: check yum, validate the configuration (returning
right after validation in only_validate mode), write the credentials
file, build the topology, check for a previous installation, run resume
discovery when one exists, stage the install files when needed, and run
the install loop.  The returned dictionary is the final instances
dictionary (empty in only_validate mode, which returns before building
one); the action list records the effects performed up to the point of
return or error (effects inside a failing phase are not recorded). -/
def installRun (env : LocalEnv) (r : Remote) (cfg : Config)
    (override onlyValidate : Bool) :
    Except Err (List (String × List CfyNode)) × List Action :=
  let yumActs := [Action.localRun "command -v yum"]
  if !env.yumPresent then (.error .yumMissing, yumActs)
  else
    let usingThree := cfg.existingVms.length = 3
    match validateConfig env cfg usingThree with
    | .error e => (.error e, yumActs)
    | .ok () =>
      if onlyValidate then (.ok [], yumActs)
      else
        let rpmLink := cfg.managerRpmDownloadLink.getD ""
        let credActs := [Action.writeLocal "secret_credentials.yaml"]
        match (if usingThree then generateThreeNodesClusterDict r cfg
               else generateGeneralClusterDict r cfg) with
        | .error e => (.error e, yumActs ++ credActs)
        | .ok (d, tacts) =>
          match firstInstance d with
          | .error e => (.error e, yumActs ++ credActs ++ tacts)
          | .ok fi =>
            match rpmWasInstalled r fi rpmLink override with
            | .error e => (.error e, yumActs ++ credActs ++ tacts)
            | .ok (prev, pacts) =>
              let marked :=
                if prev then
                  markDict env r ⟨rpmLink, override⟩ d
                else .ok (d, true, [])
              match marked with
              | .error e => (.error e, yumActs ++ credActs ++ tacts ++ pacts)
              | .ok (d1, _, macts) =>
                let sacts :=
                  if !prev || override then stagingActs env cfg d1 else []
                match installInstances env r rpmLink usingThree d1 with
                | .error e =>
                  (.error e, yumActs ++ credActs ++ tacts ++ pacts ++ macts
                   ++ sacts)
                | .ok iacts =>
                  (.ok d1, yumActs ++ credActs ++ tacts ++ pacts ++ macts
                   ++ sacts ++ iacts)

/-! Result extractors used to state the theorems. -/

/-- Whether a computation succeeded. -/
def isOkResult {α : Type} : Except Err α → Bool
  | .ok _ => true
  | .error _ => false

/-- The tier names of a topology-building result. -/
def tierNamesOf : Except Err (List (String × List CfyNode) × List Action) →
    List String
  | .ok (d, _) => d.map (fun p => p.1)
  | .error _ => []

/-- The node names, tier by tier, of a topology-building result. -/
def tierNodeNamesOf :
    Except Err (List (String × List CfyNode) × List Action) →
      List (List String)
  | .ok (d, _) => d.map (fun p => p.2.map (fun n => n.name))
  | .error _ => []

/-- The testConnection actions of a topology-building result, in order. -/
def testConnectionsOf :
    Except Err (List (String × List CfyNode) × List Action) → List Action
  | .ok (_, acts) => acts.filter (fun a =>
      match a with
      | .testConnection _ => true
      | _ => false)
  | .error _ => []

/-- The installed flags of every node of a final instances dictionary,
in tier order then node order. -/
def flagsOfResult : Except Err (List (String × List CfyNode)) → List Bool
  | .ok d => (d.map (fun p => p.2.map (fun n => n.installed))).flatten
  | .error _ => []

/-- The actions of an install-loop result ([] on error). -/
def actsOf : Except Err (List Action) → List Action
  | .ok a => a
  | .error _ => []

/-- The aggregated error list of a run that failed validation ([] for
any other outcome). -/
def validationErrorsOf {α : Type} : Except Err α → List String
  | .error (.validationError es) => es
  | _ => []

/-- Whether a run failed with the aggregated ValidationError. -/
def isValidationError {α : Type} : Except Err α → Bool
  | .error (.validationError _) => true
  | _ => false

/-! Concrete fixtures used to evaluate the theorems on closed inputs. -/

/-- A local environment where every local check passes. -/
def envW : LocalEnv :=
  { yumPresent := true
    currentHostIp := "192.0.2.100"
    initialInstallDirIsDir := true
    localCloudifyRpmInstalled := true
    clusterInstallDirExists := false
    pathExists := fun _ => true
    certOk := fun _ => true
    keyOk := fun _ => true
    certKeyMatch := fun _ _ => true
    signedBy := fun _ _ => true
    sanOk := fun _ _ => true }

/-- A concrete rpm download link whose derived rpm name is "pkg". -/
def linkW : String := "http://repo.example/pkg.rpm"

/-- Discovery parameters without override. -/
def ctxW : MarkCtx := { rpmDownloadLink := linkW, override := false }

/-- Discovery parameters with override. -/
def ctxOvW : MarkCtx := { rpmDownloadLink := linkW, override := true }

/-- A postgresql node fixture. -/
def nodeW : CfyNode :=
  mkCfyNode "10.0.0.1" "198.51.100.1" "key" "user" "postgresql-1" "host-1"
    "certs/postgresql-1_cert.pem" "certs/postgresql-1_key.pem" none

/-- A manager node fixture. -/
def nodeM : CfyNode :=
  mkCfyNode "10.0.0.2" "198.51.100.2" "key" "user" "manager-1" "host-2"
    "certs/manager-1_cert.pem" "certs/manager-1_key.pem" none

/-- A remote oracle answering a given status code forever, with the rpm
recorded as "pkg" and every file present. -/
def remoteConst (code : Nat) : Remote :=
  { node := fun _ =>
      { rpm := { failed := false, stdout := "pkg" }
        status := fun _ => code
        fileExists := fun _ => true }
    conn := fun _ => true }

/-- A remote oracle whose unit reports running (0) on the first probe and
absent (4) afterwards, with the marker present. -/
def remoteResolve : Remote :=
  { node := fun _ =>
      { rpm := { failed := false, stdout := "pkg" }
        status := fun q => if q = 0 then 0 else 4
        fileExists := fun _ => true }
    conn := fun _ => true }

/-- A remote oracle on which the rpm query fails (rpm absent). -/
def remoteAbsent : Remote :=
  { node := fun _ =>
      { rpm := { failed := true, stdout := "" }
        status := fun _ => 4
        fileExists := fun _ => true }
    conn := fun _ => true }

/-- A remote oracle with a conflicting recorded rpm name. -/
def remoteMismatch : Remote :=
  { node := fun _ =>
      { rpm := { failed := false, stdout := "pkg-other" }
        status := fun _ => 4
        fileExists := fun _ => true }
    conn := fun _ => true }

/-- A remote oracle with the unit absent (4) and the completion marker
file missing. -/
def remoteNoMarker : Remote :=
  { node := fun _ =>
      { rpm := { failed := false, stdout := "pkg" }
        status := fun _ => 4
        fileExists := fun _ => false }
    conn := fun _ => true }

/-- A declared-vm fixture. -/
def vmW : VmDict :=
  { privateIp := some "10.0.0.5"
    publicIp := some "198.51.100.5"
    hostname := some "host-5"
    certPath := none
    keyPath := none
    configPath := none
    configPath3 := some [] }

/-- Three declared-vm fixtures for the replicated topology. -/
def vm1W : VmDict :=
  { privateIp := some "10.0.0.11", publicIp := some "198.51.100.11"
    hostname := some "host-11", certPath := none, keyPath := none
    configPath := none, configPath3 := some [] }

/-- Second declared vm. -/
def vm2W : VmDict :=
  { privateIp := some "10.0.0.12", publicIp := some "198.51.100.12"
    hostname := some "host-12", certPath := none, keyPath := none
    configPath := none, configPath3 := some [] }

/-- Third declared vm. -/
def vm3W : VmDict :=
  { privateIp := some "10.0.0.13", publicIp := some "198.51.100.13"
    hostname := some "host-13", certPath := none, keyPath := none
    configPath := none, configPath3 := some [] }

/-- A complete three-nodes config fixture without an external database. -/
def cfg3W : Config :=
  { existingVms := [("node-1", vm1W), ("node-2", vm2W), ("node-3", vm3W)]
    sshKeyPath := some "/home/user/key.pem"
    sshUser := some "centos"
    cloudifyLicensePath := some "/home/user/license.yaml"
    managerRpmDownloadLink := some linkW
    caCertPath := none
    externalDbConfiguration := none
    ldap := some { server := "", caCert := "" }
    loadBalancerIp := none }

/-- A config fixture without an ldap section (the key missing from the
document). -/
def cfgNoLdap : Config :=
  { existingVms := [("node-1", vm1W), ("node-2", vm2W), ("node-3", vm3W)]
    sshKeyPath := some "/home/user/key.pem"
    sshUser := some "centos"
    cloudifyLicensePath := some "/home/user/license.yaml"
    managerRpmDownloadLink := some linkW
    caCertPath := none
    externalDbConfiguration := none
    ldap := none
    loadBalancerIp := none }

/-- A general-mode config fixture (four vms) missing ssh_user and
manager_rpm_download_link, with the ldap section present. -/
def cfgMissing : Config :=
  { existingVms := [("postgresql-1", vm1W), ("rabbitmq-1", vm2W),
                    ("manager-1", vm3W), ("manager-2", vm3W)]
    sshKeyPath := some "/home/user/key.pem"
    sshUser := none
    cloudifyLicensePath := some "/home/user/license.yaml"
    managerRpmDownloadLink := none
    caCertPath := none
    externalDbConfiguration := none
    ldap := some { server := "", caCert := "" }
    loadBalancerIp := none }

/-- A config fixture with an external database, whose single declared vm
is named with the postgresql prefix (the tier key popped by the external
database setting). -/
def cfgC10 : Config :=
  { existingVms := [("postgresql-1", vmW)]
    sshKeyPath := some "/home/user/key.pem"
    sshUser := some "centos"
    cloudifyLicensePath := some "/home/user/license.yaml"
    managerRpmDownloadLink := some linkW
    caCertPath := none
    externalDbConfiguration := some [("ca_path", some "/home/user/db_ca.pem")]
    ldap := some { server := "", caCert := "" }
    loadBalancerIp := none }

end ClusterSetup

deriving instance DecidableEq for Except

namespace ClusterSetup

/-! Lemmas about the poll loop of
_wait_for_cloudify_current_installation. -/

/-- Advancing the poll loop through m probes that all answer 0 adds m to
the retry count and the probe index, as long as the guard keeps holding
(rc + m is at most 601). -/
lemma waitLoopAux_advance (r : Remote) (n : CfyNode) :
    ∀ (m q rc fuel : Nat),
      (∀ j, j < m → (r.node n.name).status (q + j) = 0) →
      rc + m ≤ 601 →
      waitLoopAux r n (fuel + m) q rc 0 =
        waitLoopAux r n fuel (q + m) (rc + m) 0 := by
  intro m
  induction m with
  | zero => intro q rc fuel _ _; rfl
  | succ m ih =>
    intro q rc fuel hz hb
    have hstep : waitLoopAux r n (fuel + (m + 1)) q rc 0 =
        waitLoopAux r n (fuel + m) (q + 1) (rc + 1) ((r.node n.name).status q) := by
      have : fuel + (m + 1) = (fuel + m) + 1 := by omega
      rw [this]
      show (if (0 : Nat) = 0 ∧ rc ≤ 600 then
        waitLoopAux r n (fuel + m) (q + 1) (rc + 1) ((r.node n.name).status q)
        else ((0 : Nat), rc, q)) = _
      rw [if_pos ⟨rfl, by omega⟩]
    have h0 := hz 0 (by omega)
    rw [Nat.add_zero] at h0
    rw [hstep, h0]
    rw [ih (q + 1) (rc + 1) fuel
      (fun j hj => by
        have := hz (j + 1) (by omega)
        simpa [Nat.add_assoc, Nat.add_comm 1 j] using this)
      (by omega)]
    have h1 : q + 1 + m = q + (m + 1) := by omega
    have h2 : rc + 1 + m = rc + (m + 1) := by omega
    rw [h1, h2]

/-- If the first 600 polls all answer 0, the loop exits with a retry
count of 601 (whatever the 601st poll answers), so the wait raises the
timeout ClusterInstallError. -/
lemma waitForCurrentInstallation_timeout (r : Remote) (n : CfyNode)
    (h : ∀ k, 1 ≤ k → k ≤ 600 → (r.node n.name).status k = 0) :
    waitForCurrentInstallation r n 1 = .error (.timeout n.name) := by
  unfold waitForCurrentInstallation
  have hadv := waitLoopAux_advance r n 600 1 0 2
    (fun j hj => h (1 + j) (by omega) (by omega)) (by omega)
  have h602 : (602 : Nat) = 2 + 600 := by omega
  rw [h602, hadv]
  have hstep : waitLoopAux r n 2 (1 + 600) (0 + 600) 0 =
      waitLoopAux r n 1 602 601 ((r.node n.name).status 601) := by
    show (if (0 : Nat) = 0 ∧ 600 ≤ 600 then _ else ((0 : Nat), 600, 601)) = _
    rw [if_pos ⟨rfl, by omega⟩]
  rw [hstep]
  have hstop : waitLoopAux r n 1 602 601 ((r.node n.name).status 601) =
      ((r.node n.name).status 601, 601, 602) := by
    show (if (r.node n.name).status 601 = 0 ∧ 601 ≤ 600 then _ else _) = _
    rw [if_neg (by omega)]
  rw [hstop]
  simp

/-- If the first poll that answers a non-zero code is poll k with
k at most 600, the loop exits with retry count k and the wait succeeds,
returning the next probe index k + 1. -/
lemma waitForCurrentInstallation_resolve (r : Remote) (n : CfyNode)
    (k : Nat) (h1 : 1 ≤ k) (h6 : k ≤ 600)
    (hk : (r.node n.name).status k ≠ 0)
    (hz : ∀ j, 1 ≤ j → j < k → (r.node n.name).status j = 0) :
    waitForCurrentInstallation r n 1 =
      .ok (k + 1, List.replicate k (Action.queryStatus n.name)) := by
  unfold waitForCurrentInstallation
  have hadv := waitLoopAux_advance r n (k - 1) 1 0 (603 - k)
    (fun j hj => hz (1 + j) (by omega) (by omega)) (by omega)
  have h602 : (602 : Nat) = (603 - k) + (k - 1) := by omega
  rw [h602, hadv]
  have hq : 1 + (k - 1) = k := by omega
  have hrc : 0 + (k - 1) = k - 1 := by omega
  rw [hq, hrc]
  obtain ⟨f, hf⟩ : ∃ f, 603 - k = f + 2 := ⟨601 - k, by omega⟩
  rw [hf]
  have hstep : waitLoopAux r n (f + 2) k (k - 1) 0 =
      waitLoopAux r n (f + 1) (k + 1) (k - 1 + 1) ((r.node n.name).status k) := by
    show (if (0 : Nat) = 0 ∧ k - 1 ≤ 600 then _ else _) = _
    rw [if_pos ⟨rfl, by omega⟩]
  rw [hstep]
  have hstop : waitLoopAux r n (f + 1) (k + 1) (k - 1 + 1)
      ((r.node n.name).status k) = ((r.node n.name).status k, k - 1 + 1, k + 1) := by
    show (if (r.node n.name).status k = 0 ∧ k - 1 + 1 ≤ 600 then _ else _) = _
    rw [if_neg (by intro hcon; exact hk hcon.1)]
  rw [hstop]
  have hrc2 : k - 1 + 1 = k := by omega
  show (if k - 1 + 1 > 600 then Except.error (Err.timeout n.name)
    else Except.ok (k + 1, List.replicate (k - 1 + 1)
      (Action.queryStatus n.name))) =
    Except.ok (k + 1, List.replicate k (Action.queryStatus n.name))
  rw [hrc2, if_neg (by omega)]

/-! Lemmas about the per-node discovery helpers. -/

/-- _verify_service_installed can only raise KeyError, never a timeout. -/
lemma verifyServiceInstalled_ne_timeout (r : Remote) (n : CfyNode)
    (z : String) : verifyServiceInstalled r n ≠ .error (.timeout z) := by
  unfold verifyServiceInstalled
  cases namesMapping n.typ <;> simp

/-- _verify_cloudify_installed_successfully never raises a timeout. -/
lemma verifyCloudify_ne_timeout (r : Remote) (n : CfyNode) (q : Nat)
    (z : String) :
    verifyCloudifyInstalledSuccessfully r n q ≠ .error (.timeout z) := by
  unfold verifyCloudifyInstalledSuccessfully
  by_cases h3 : (r.node n.name).status q = 3
  · simp [h3]
  · by_cases h4 : (r.node n.name).status q = 4
    · simp [h3, h4]
      cases hm : verifyServiceInstalled r n with
      | ok b => simp
      | error e =>
        simp
        intro he
        exact verifyServiceInstalled_ne_timeout r n z (by rw [hm, he])
    · simp [h3, h4]

/-- Discovery of a node whose unit is running (code 0) with the first 600
polls still answering 0 raises the timeout error. -/
lemma cwpis_timeout (r : Remote) (n : CfyNode)
    (h0 : (r.node n.name).status 0 = 0)
    (hz : ∀ k, 1 ≤ k → k ≤ 600 → (r.node n.name).status k = 0) :
    cloudifyWasPreviouslyInstalledSuccessfully r n =
      .error (.timeout n.name) := by
  unfold cloudifyWasPreviouslyInstalledSuccessfully
  rw [h0]
  simp [waitForCurrentInstallation_timeout r n hz]

/-- Discovery of a node whose unit is running (code 0) that resolves to a
non-zero code within the 600-poll bound never raises the timeout error. -/
lemma cwpis_not_timeout (r : Remote) (n : CfyNode) (k : Nat)
    (h0 : (r.node n.name).status 0 = 0)
    (h1 : 1 ≤ k) (h6 : k ≤ 600)
    (hk : (r.node n.name).status k ≠ 0)
    (hz : ∀ j, 1 ≤ j → j < k → (r.node n.name).status j = 0) :
    cloudifyWasPreviouslyInstalledSuccessfully r n ≠
      .error (.timeout n.name) := by
  unfold cloudifyWasPreviouslyInstalledSuccessfully
  rw [h0]
  simp [waitForCurrentInstallation_resolve r n k h1 h6 hk hz]
  cases hv : verifyCloudifyInstalledSuccessfully r n (k + 1) with
  | ok b => simp
  | error e =>
    simp
    intro he
    exact verifyCloudify_ne_timeout r n (k + 1) n.name (by rw [hv, he])

/-- Discovery of a node whose unit reports code 3: the failed
installation is removed, the failed unit is reset, and the node is
reported not installed. -/
lemma cwpis_status3 (r : Remote) (n : CfyNode)
    (hs : (r.node n.name).status 0 = 3) :
    cloudifyWasPreviouslyInstalledSuccessfully r n =
      .ok (false, [Action.queryStatus n.name, Action.runRemove n.name,
                   Action.resetFailed n.name]) := by
  unfold cloudifyWasPreviouslyInstalledSuccessfully
  rw [hs]
  simp

/-- Discovery of a node whose unit is absent (code 4) resolves via the
completion marker file. -/
lemma cwpis_status4 (r : Remote) (n : CfyNode) (svc : String)
    (hs : (r.node n.name).status 0 = 4)
    (hsvc : namesMapping n.typ = some svc) :
    cloudifyWasPreviouslyInstalledSuccessfully r n =
      .ok ((r.node n.name).fileExists (INITIAL_INSTALL_DIR ++ "/" ++ svc),
           [Action.queryStatus n.name, Action.queryMarker n.name]) := by
  unfold cloudifyWasPreviouslyInstalledSuccessfully verifyServiceInstalled
  rw [hs, hsvc]
  simp

/-- _rpm_was_installed on a node whose rpm query fails. -/
lemma rpmWasInstalled_absent (r : Remote) (n : CfyNode)
    (link : String) (ov : Bool)
    (hf : (r.node n.name).rpm.failed = true) :
    rpmWasInstalled r n link ov = .ok (false, [Action.queryRpm n.name]) := by
  unfold rpmWasInstalled
  simp [hf]

/-- _rpm_was_installed on a node whose rpm query succeeds with a matching
name, or with override requested. -/
lemma rpmWasInstalled_ok (r : Remote) (n : CfyNode)
    (link : String) (ov : Bool)
    (hf : (r.node n.name).rpm.failed = false)
    (hm : (r.node n.name).rpm.stdout = rpmNameOf link ∨ ov = true) :
    rpmWasInstalled r n link ov = .ok (true, [Action.queryRpm n.name]) := by
  unfold rpmWasInstalled
  rcases hm with h | h <;> simp [hf, h]

/-- _rpm_was_installed on a node with a different recorded rpm name and
no override raises the "Please uninstall it first" error. -/
lemma rpmWasInstalled_mismatch (r : Remote) (n : CfyNode)
    (link : String)
    (hf : (r.node n.name).rpm.failed = false)
    (hm : (r.node n.name).rpm.stdout ≠ rpmNameOf link) :
    rpmWasInstalled r n link false = .error (.rpmMismatch n.privateIp) := by
  unfold rpmWasInstalled
  simp [hf, hm]

/-- With override, _rpm_was_installed never raises. -/
lemma rpmWasInstalled_override_ne_error (r : Remote) (n : CfyNode)
    (link : String) (e : Err) :
    rpmWasInstalled r n link true ≠ .error e := by
  unfold rpmWasInstalled
  by_cases hf : (r.node n.name).rpm.failed <;> simp [hf]

/-! Lemmas about the per-instance body of _mark_installed_instances. -/

/-- A node whose rpm query fails halts discovery without touching the
node record, after the rpm query alone. -/
lemma markNode_rpmAbsent (env : LocalEnv) (r : Remote) (ctx : MarkCtx)
    (n : CfyNode) (hf : (r.node n.name).rpm.failed = true) :
    markNode env r ctx n = .ok (n, false, [Action.queryRpm n.name]) := by
  unfold markNode
  rw [rpmWasInstalled_absent r n ctx.rpmDownloadLink ctx.override hf]

/-- A node with a conflicting rpm and no override aborts discovery with
the rpmMismatch error. -/
lemma markNode_mismatch (env : LocalEnv) (r : Remote) (ctx : MarkCtx)
    (n : CfyNode)
    (hf : (r.node n.name).rpm.failed = false)
    (hm : (r.node n.name).rpm.stdout ≠ rpmNameOf ctx.rpmDownloadLink)
    (hov : ctx.override = false) :
    markNode env r ctx n = .error (.rpmMismatch n.privateIp) := by
  unfold markNode
  rw [hov] at *
  rw [rpmWasInstalled_mismatch r n ctx.rpmDownloadLink hf hm]

/-- A node with the rpm installed whose unit reports code 3 is cleaned
up, marked not installed, and halts discovery. -/
lemma markNode_status3 (env : LocalEnv) (r : Remote) (ctx : MarkCtx)
    (n : CfyNode)
    (hf : (r.node n.name).rpm.failed = false)
    (hm : (r.node n.name).rpm.stdout = rpmNameOf ctx.rpmDownloadLink ∨
          ctx.override = true)
    (hs : (r.node n.name).status 0 = 3) :
    markNode env r ctx n =
      .ok ({ n with installed := false }, false,
        [Action.queryRpm n.name, Action.queryStatus n.name,
         Action.runRemove n.name, Action.resetFailed n.name]) := by
  unfold markNode
  rw [rpmWasInstalled_ok r n ctx.rpmDownloadLink ctx.override hf hm]
  rw [cwpis_status3 r n hs]
  simp

/-- A node with the rpm installed whose unit stays in code 0 beyond the
poll bound aborts discovery with the timeout error. -/
lemma markNode_timeout (env : LocalEnv) (r : Remote) (ctx : MarkCtx)
    (n : CfyNode)
    (hf : (r.node n.name).rpm.failed = false)
    (hm : (r.node n.name).rpm.stdout = rpmNameOf ctx.rpmDownloadLink ∨
          ctx.override = true)
    (h0 : (r.node n.name).status 0 = 0)
    (hz : ∀ k, 1 ≤ k → k ≤ 600 → (r.node n.name).status k = 0) :
    markNode env r ctx n = .error (.timeout n.name) := by
  unfold markNode
  rw [rpmWasInstalled_ok r n ctx.rpmDownloadLink ctx.override hf hm]
  rw [cwpis_timeout r n h0 hz]

/-- A previously successfully installed node (code 4 with the marker
present) under override: the installation is removed and the node
continues discovery with installed reset to False. -/
lemma markNode_installed_override (env : LocalEnv) (r : Remote)
    (ctx : MarkCtx) (n : CfyNode) (svc : String)
    (hf : (r.node n.name).rpm.failed = false)
    (hm : (r.node n.name).rpm.stdout = rpmNameOf ctx.rpmDownloadLink ∨
          ctx.override = true)
    (hs : (r.node n.name).status 0 = 4)
    (hsvc : namesMapping n.typ = some svc)
    (hmk : (r.node n.name).fileExists (INITIAL_INSTALL_DIR ++ "/" ++ svc)
           = true)
    (hov : ctx.override = true) :
    markNode env r ctx n =
      .ok ({ n with installed := false }, true,
        [Action.queryRpm n.name, Action.queryStatus n.name,
         Action.queryMarker n.name] ++
        (removeCloudifyInstallation env r { n with installed := true }).2) := by
  unfold markNode
  rw [rpmWasInstalled_ok r n ctx.rpmDownloadLink ctx.override hf hm]
  rw [cwpis_status4 r n svc hs hsvc, hmk, hov]
  simp [removeCloudifyInstallation]

/-- A previously successfully installed node without override is marked
installed and continues discovery. -/
lemma markNode_installed_keep (env : LocalEnv) (r : Remote)
    (ctx : MarkCtx) (n : CfyNode) (svc : String)
    (hf : (r.node n.name).rpm.failed = false)
    (hm : (r.node n.name).rpm.stdout = rpmNameOf ctx.rpmDownloadLink ∨
          ctx.override = true)
    (hs : (r.node n.name).status 0 = 4)
    (hsvc : namesMapping n.typ = some svc)
    (hmk : (r.node n.name).fileExists (INITIAL_INSTALL_DIR ++ "/" ++ svc)
           = true)
    (hov : ctx.override = false) :
    markNode env r ctx n =
      .ok ({ n with installed := true }, true,
        [Action.queryRpm n.name, Action.queryStatus n.name,
         Action.queryMarker n.name]) := by
  unfold markNode
  rw [rpmWasInstalled_ok r n ctx.rpmDownloadLink ctx.override hf hm]
  rw [cwpis_status4 r n svc hs hsvc, hmk, hov]
  simp

/-- A node whose unit is absent (code 4) with the marker absent is marked
not installed and halts discovery. -/
lemma markNode_notInstalled (env : LocalEnv) (r : Remote)
    (ctx : MarkCtx) (n : CfyNode) (svc : String)
    (hf : (r.node n.name).rpm.failed = false)
    (hm : (r.node n.name).rpm.stdout = rpmNameOf ctx.rpmDownloadLink ∨
          ctx.override = true)
    (hs : (r.node n.name).status 0 = 4)
    (hsvc : namesMapping n.typ = some svc)
    (hmk : (r.node n.name).fileExists (INITIAL_INSTALL_DIR ++ "/" ++ svc)
           = false) :
    markNode env r ctx n =
      .ok ({ n with installed := false }, false,
        [Action.queryRpm n.name, Action.queryStatus n.name,
         Action.queryMarker n.name]) := by
  unfold markNode
  rw [rpmWasInstalled_ok r n ctx.rpmDownloadLink ctx.override hf hm]
  rw [cwpis_status4 r n svc hs hsvc, hmk]
  simp

/-! Prefix lemmas: discovery over a list or dictionary whose processed
prefix fully continues behaves as the prefix run followed by the rest. -/

/-- Appending behaviour of the per-tier loop when the first part of the
tier continues on every node. -/
lemma markList_append (env : LocalEnv) (r : Remote) (ctx : MarkCtx) :
    ∀ (ns nsR : List CfyNode) (a1 : List Action),
      markList env r ctx ns = .ok (nsR, true, a1) →
      ∀ tail, markList env r ctx (ns ++ tail) =
        match markList env r ctx tail with
        | .error e => .error e
        | .ok (tR, c, a2) => .ok (nsR ++ tR, c, a1 ++ a2)
  | [], nsR, a1 => by
    intro h tail
    unfold markList at h
    injection h with h
    injection h with h1 h
    injection h with h2 h3
    subst h1
    subst h3
    simp only [List.nil_append]
    cases hm : markList env r ctx tail with
    | error e => simp
    | ok t =>
      obtain ⟨tR, c, a2⟩ := t
      simp
  | n :: ns, nsR, a1 => by
    intro h tail
    unfold markList at h
    cases hn : markNode env r ctx n with
    | error e => rw [hn] at h; exact absurd h (by simp)
    | ok res =>
      obtain ⟨nr, cont, acts⟩ := res
      rw [hn] at h
      cases cont with
      | false => simp at h
      | true =>
        simp only at h
        cases hns : markList env r ctx ns with
        | error e => rw [hns] at h; exact absurd h (by simp)
        | ok res2 =>
          obtain ⟨nsr2, c2, a2⟩ := res2
          rw [hns] at h
          simp only at h
          injection h with h
          injection h with h1 h
          injection h with h2 h3
          cases c2 with
          | false => exact absurd h2.symm (by simp)
          | true =>
            subst h1
            subst h3
            have ih := markList_append env r ctx ns nsr2 a2 hns tail
            show (match markNode env r ctx n with
              | Except.error e => Except.error e
              | Except.ok (nr, false, acts) =>
                Except.ok (nr :: (ns ++ tail), false, acts)
              | Except.ok (nr, true, acts) =>
                match markList env r ctx (ns ++ tail) with
                | Except.error e => Except.error e
                | Except.ok (nsr, cont, acts2) =>
                  Except.ok (nr :: nsr, cont, acts ++ acts2)) = _
            rw [hn, ih]
            cases hm : markList env r ctx tail with
            | error e => simp
            | ok t =>
              obtain ⟨tR, c, a3⟩ := t
              simp

/-- Appending behaviour of the tier loop of _mark_installed_instances
when the processed tiers all fully continue. -/
lemma markDict_append (env : LocalEnv) (r : Remote) (ctx : MarkCtx) :
    ∀ (d dR : List (String × List CfyNode)) (a1 : List Action),
      markDict env r ctx d = .ok (dR, true, a1) →
      ∀ tail, markDict env r ctx (d ++ tail) =
        match markDict env r ctx tail with
        | .error e => .error e
        | .ok (tR, c, a2) => .ok (dR ++ tR, c, a1 ++ a2)
  | [], dR, a1 => by
    intro h tail
    unfold markDict at h
    injection h with h
    injection h with h1 h
    injection h with h2 h3
    subst h1
    subst h3
    simp only [List.nil_append]
    cases hm : markDict env r ctx tail with
    | error e => simp
    | ok t =>
      obtain ⟨tR, c, a2⟩ := t
      simp
  | (t, ns) :: d, dR, a1 => by
    intro h tail
    unfold markDict at h
    cases hn : markList env r ctx ns with
    | error e => rw [hn] at h; exact absurd h (by simp)
    | ok res =>
      obtain ⟨nsr, cont, acts⟩ := res
      rw [hn] at h
      cases cont with
      | false => simp at h
      | true =>
        simp only at h
        cases hd : markDict env r ctx d with
        | error e => rw [hd] at h; exact absurd h (by simp)
        | ok res2 =>
          obtain ⟨dr2, c2, a2⟩ := res2
          rw [hd] at h
          simp only at h
          injection h with h
          injection h with h1 h
          injection h with h2 h3
          cases c2 with
          | false => exact absurd h2.symm (by simp)
          | true =>
            subst h1
            subst h3
            have ih := markDict_append env r ctx d dr2 a2 hd tail
            show (match markList env r ctx ns with
              | Except.error e => Except.error e
              | Except.ok (nsr, false, acts) =>
                Except.ok ((t, nsr) :: (d ++ tail), false, acts)
              | Except.ok (nsr, true, acts) =>
                match markDict env r ctx (d ++ tail) with
                | Except.error e => Except.error e
                | Except.ok (restr, cont, acts2) =>
                  Except.ok ((t, nsr) :: restr, cont, acts ++ acts2)) = _
            rw [hn, ih]
            cases hm : markDict env r ctx tail with
            | error e => simp
            | ok tl =>
              obtain ⟨tR, c, a3⟩ := tl
              simp

/-! Idempotence of discovery: every helper it runs reads the node record
only through fields other than the mutable installed flag, so re-running
discovery on its own output reproduces it. -/

/-- _rpm_was_installed does not read the installed flag. -/
lemma rpmWasInstalled_flag (r : Remote) (n : CfyNode) (link : String)
    (ov x : Bool) :
    rpmWasInstalled r { n with installed := x } link ov =
      rpmWasInstalled r n link ov := rfl

/-- _cloudify_was_previously_installed_successfully does not read the
installed flag. -/
lemma cwpis_flag (r : Remote) (n : CfyNode) (x : Bool) :
    cloudifyWasPreviouslyInstalledSuccessfully r { n with installed := x } =
      cloudifyWasPreviouslyInstalledSuccessfully r n := rfl

/-- _remove_cloudify_installation reads the node only through fields
other than the installed flag, and always resets the flag. -/
lemma removeCloudifyInstallation_flag (env : LocalEnv) (r : Remote)
    (n : CfyNode) (x : Bool) :
    removeCloudifyInstallation env r { n with installed := x } =
      removeCloudifyInstallation env r n := rfl

/-- A successful rpm query reporting the rpm absent can only happen when
the remote rpm command failed. -/
lemma rpmWasInstalled_false_imp (r : Remote) (n : CfyNode) (link : String)
    (ov : Bool) (a : List Action)
    (h : rpmWasInstalled r n link ov = .ok (false, a)) :
    (r.node n.name).rpm.failed = true := by
  by_cases hf : (r.node n.name).rpm.failed = true
  · exact hf
  · exfalso
    simp only [Bool.not_eq_true] at hf
    by_cases hm : (r.node n.name).rpm.stdout = rpmNameOf link ∨ ov = true
    · rw [rpmWasInstalled_ok r n link ov hf hm] at h
      exact absurd h (by
        intro hcon
        injection hcon with hcon
        injection hcon with h1 h2
        exact absurd h1 (by simp))
    · unfold rpmWasInstalled at h
      simp [hf, hm] at h

/-- When the rpm is present on the node, the per-instance discovery body
does not depend on the incoming installed flag. -/
lemma markNode_flag (env : LocalEnv) (r : Remote) (ctx : MarkCtx)
    (n : CfyNode) (x : Bool)
    (hf : (r.node n.name).rpm.failed = false) :
    markNode env r ctx { n with installed := x } = markNode env r ctx n := by
  unfold markNode
  rw [show rpmWasInstalled r { n with installed := x } ctx.rpmDownloadLink
      ctx.override = rpmWasInstalled r n ctx.rpmDownloadLink ctx.override
      from rfl]
  cases h1 : rpmWasInstalled r n ctx.rpmDownloadLink ctx.override with
  | error e => rfl
  | ok res =>
    obtain ⟨b, acts⟩ := res
    cases b with
    | false =>
      have := rpmWasInstalled_false_imp r n ctx.rpmDownloadLink
        ctx.override acts h1
      rw [hf] at this
      exact absurd this (by simp)
    | true => rfl

/-- When the rpm is present, the output node of the discovery body is
the input node with some installed flag. -/
lemma markNode_output_flagged (env : LocalEnv) (r : Remote) (ctx : MarkCtx)
    (n nr : CfyNode) (cont : Bool) (a : List Action)
    (hf : (r.node n.name).rpm.failed = false)
    (h : markNode env r ctx n = .ok (nr, cont, a)) :
    ∃ b, nr = { n with installed := b } := by
  unfold markNode at h
  cases h1 : rpmWasInstalled r n ctx.rpmDownloadLink ctx.override with
  | error e => rw [h1] at h; exact absurd h (by simp)
  | ok res =>
    obtain ⟨b0, acts⟩ := res
    rw [h1] at h
    cases b0 with
    | false =>
      have := rpmWasInstalled_false_imp r n ctx.rpmDownloadLink
        ctx.override acts h1
      rw [hf] at this
      exact absurd this (by simp)
    | true =>
      simp only at h
      cases h2 : cloudifyWasPreviouslyInstalledSuccessfully r n with
      | error e => rw [h2] at h; exact absurd h (by simp)
      | ok res2 =>
        obtain ⟨inst, cacts⟩ := res2
        rw [h2] at h
        simp only at h
        cases inst with
        | true =>
          by_cases hov : ctx.override = true
          · rw [if_pos rfl, if_pos hov] at h
            refine ⟨false, ?_⟩
            injection h with h
            injection h with hn h
            rw [← hn]
            rfl
          · rw [if_pos rfl, if_neg hov] at h
            refine ⟨true, ?_⟩
            injection h with h
            injection h with hn h
            exact hn.symm
        | false =>
          rw [if_neg (by simp)] at h
          refine ⟨false, ?_⟩
          injection h with h
          injection h with hn h
          exact hn.symm

/-- Re-running the per-instance discovery body on its own output yields
the same output. -/
lemma markNode_idem (env : LocalEnv) (r : Remote) (ctx : MarkCtx)
    (n nr : CfyNode) (cont : Bool) (a : List Action)
    (h : markNode env r ctx n = .ok (nr, cont, a)) :
    markNode env r ctx nr = .ok (nr, cont, a) := by
  cases hf : (r.node n.name).rpm.failed with
  | true =>
    have habs := markNode_rpmAbsent env r ctx n hf
    rw [habs] at h
    injection h with h
    injection h with hn h
    rw [← hn]
    rw [habs]
    injection h with hc ha
    rw [← hc, ← ha]
  | false =>
    obtain ⟨b, hb⟩ := markNode_output_flagged env r ctx n nr cont a hf h
    subst hb
    rw [markNode_flag env r ctx n b hf]
    exact h

/-- Re-running the per-tier discovery loop on its own output yields the
same output. -/
lemma markList_idem (env : LocalEnv) (r : Remote) (ctx : MarkCtx) :
    ∀ (ns nsR : List CfyNode) (c : Bool) (a : List Action),
      markList env r ctx ns = .ok (nsR, c, a) →
      markList env r ctx nsR = .ok (nsR, c, a)
  | [], nsR, c, a => by
    intro h
    unfold markList at h
    injection h with h
    injection h with h1 h
    injection h with h2 h3
    subst h1
    subst h2
    subst h3
    rfl
  | n :: ns, nsR, c, a => by
    intro h
    unfold markList at h
    cases hn : markNode env r ctx n with
    | error e => rw [hn] at h; exact absurd h (by simp)
    | ok res =>
      obtain ⟨nr, cont, acts⟩ := res
      rw [hn] at h
      cases cont with
      | false =>
        simp only at h
        injection h with h
        injection h with h1 h
        injection h with h2 h3
        subst h1
        subst h2
        subst h3
        unfold markList
        rw [markNode_idem env r ctx n nr false acts hn]
      | true =>
        simp only at h
        cases hns : markList env r ctx ns with
        | error e => rw [hns] at h; exact absurd h (by simp)
        | ok res2 =>
          obtain ⟨nsr2, c2, a2⟩ := res2
          rw [hns] at h
          simp only at h
          injection h with h
          injection h with h1 h
          injection h with h2 h3
          subst h1
          subst h2
          subst h3
          unfold markList
          rw [markNode_idem env r ctx n nr true acts hn]
          rw [markList_idem env r ctx ns nsr2 c2 a2 hns]

/-- Re-running discovery over the whole dictionary on its own output
yields the same output. -/
lemma markDict_idem (env : LocalEnv) (r : Remote) (ctx : MarkCtx) :
    ∀ (d dR : List (String × List CfyNode)) (c : Bool) (a : List Action),
      markDict env r ctx d = .ok (dR, c, a) →
      markDict env r ctx dR = .ok (dR, c, a)
  | [], dR, c, a => by
    intro h
    unfold markDict at h
    injection h with h
    injection h with h1 h
    injection h with h2 h3
    subst h1
    subst h2
    subst h3
    rfl
  | (t, ns) :: d, dR, c, a => by
    intro h
    unfold markDict at h
    cases hn : markList env r ctx ns with
    | error e => rw [hn] at h; exact absurd h (by simp)
    | ok res =>
      obtain ⟨nsr, cont, acts⟩ := res
      rw [hn] at h
      cases cont with
      | false =>
        simp only at h
        injection h with h
        injection h with h1 h
        injection h with h2 h3
        subst h1
        subst h2
        subst h3
        unfold markDict
        rw [markList_idem env r ctx ns nsr false acts hn]
      | true =>
        simp only at h
        cases hd : markDict env r ctx d with
        | error e => rw [hd] at h; exact absurd h (by simp)
        | ok res2 =>
          obtain ⟨dr2, c2, a2⟩ := res2
          rw [hd] at h
          simp only at h
          injection h with h
          injection h with h1 h
          injection h with h2 h3
          subst h1
          subst h2
          subst h3
          unfold markDict
          rw [markList_idem env r ctx ns nsr true acts hn]
          rw [markDict_idem env r ctx d dr2 c2 a2 hd]

/-! Lemmas about the install-and-verify loop. -/

/-- The post-launch verification on status 3 raises "Failed installing". -/
lemma verifyCloudify_status3 (r : Remote) (n : CfyNode) (q : Nat)
    (hs : (r.node n.name).status q = 3) :
    verifyCloudifyInstalledSuccessfully r n q =
      .error (.failedInstalling n.privateIp) := by
  unfold verifyCloudifyInstalledSuccessfully
  rw [hs]
  simp

/-- The post-launch verification on status 4 checks the completion
marker and returns its result (with the probe trace). -/
lemma verifyCloudify_status4 (r : Remote) (n : CfyNode) (q : Nat)
    (svc : String)
    (hs : (r.node n.name).status q = 4)
    (hsvc : namesMapping n.typ = some svc) :
    verifyCloudifyInstalledSuccessfully r n q =
      .ok ((r.node n.name).fileExists (INITIAL_INSTALL_DIR ++ "/" ++ svc),
        q + 1, [Action.queryStatus n.name, Action.queryMarker n.name]) := by
  unfold verifyCloudifyInstalledSuccessfully verifyServiceInstalled
  rw [hs, hsvc]
  simp

/-- The post-launch verification on any status other than 3 and 4 raises
"status is unknown". -/
lemma verifyCloudify_unknown (r : Remote) (n : CfyNode) (q : Nat)
    (h3 : (r.node n.name).status q ≠ 3)
    (h4 : (r.node n.name).status q ≠ 4) :
    verifyCloudifyInstalledSuccessfully r n q =
      .error (.statusUnknown n.unitName) := by
  unfold verifyCloudifyInstalledSuccessfully
  simp [h3, h4]

/-- The per-instance install body on a later three-nodes round skips the
staging branch and goes straight to config copy, launch and verify. -/
lemma installNode_tnf (env : LocalEnv) (r : Remote) (link : String)
    (n : CfyNode) (hinst : n.installed = false) :
    installNode env r link true n =
      match verifyCloudifyInstalledSuccessfully r n 0 with
      | .error e => .error e
      | .ok (_, _, vacts) =>
        .ok ([Action.copyConfig n.name, Action.launchInstall n.name] ++
          vacts) := by
  unfold installNode
  rw [hinst]
  simp

/-! Lemmas about topology building. -/

/-- Appending to a tier whose key is absent models the KeyError of
instances_dict[new_vm.type]. -/
lemma appendToTier_notMem (k : String) (n : CfyNode) :
    ∀ d : List (String × List CfyNode),
      (∀ p ∈ d, p.1 ≠ k) → appendToTier k n d = none
  | [] => by
    intro _
    rfl
  | (t, ns) :: rest => by
    intro h
    unfold appendToTier
    rw [if_neg (h (t, ns) (by simp))]
    rw [appendToTier_notMem k n rest (fun p hp => h p (by simp [hp]))]

/-- Appending to a present tier succeeds and preserves the tier keys. -/
lemma appendToTier_mem (k : String) (n : CfyNode) :
    ∀ d : List (String × List CfyNode),
      k ∈ d.map Prod.fst →
      ∃ d', appendToTier k n d = some d' ∧
        d'.map Prod.fst = d.map Prod.fst
  | [] => by
    intro h
    exact absurd h (by simp)
  | (t, ns) :: rest => by
    intro h
    by_cases ht : t = k
    · refine ⟨(t, ns ++ [n]) :: rest, ?_, by simp⟩
      unfold appendToTier
      rw [if_pos ht]
    · have hrest : k ∈ rest.map Prod.fst := by
        simp at h
        rcases h with h | h
        · exact absurd h.symm ht
        · simpa using h
      obtain ⟨rest', hr, hmap⟩ := appendToTier_mem k n rest hrest
      refine ⟨(t, ns) :: rest', ?_, by simp [hmap]⟩
      unfold appendToTier
      rw [if_neg ht, hr]

/-- _get_cfy_node when the connection test succeeds. -/
lemma getCfyNode_conn (r : Remote) (cfg : Config) (vd : VmDict)
    (nodeName : String) (cp : Option String)
    (hc : r.conn (builtNode cfg vd nodeName cp).privateIp = true) :
    getCfyNode r cfg vd nodeName cp true =
      .ok (builtNode cfg vd nodeName cp,
        copyCertActs cfg vd nodeName ++
          [Action.testConnection (builtNode cfg vd nodeName cp).privateIp]) := by
  unfold getCfyNode
  simp [hc]

/-- _get_cfy_node under a connection oracle that always succeeds:
connection testing happens exactly when requested. -/
lemma getCfyNode_ok (r : Remote) (cfg : Config)
    (hconn : ∀ ip, r.conn ip = true) (vd : VmDict) (nodeName : String)
    (cp : Option String) (validate : Bool) :
    getCfyNode r cfg vd nodeName cp validate =
      .ok (builtNode cfg vd nodeName cp,
        copyCertActs cfg vd nodeName ++
          (if validate then
            [Action.testConnection (builtNode cfg vd nodeName cp).privateIp]
          else [])) := by
  unfold getCfyNode
  cases validate with
  | false => simp
  | true => simp [hconn (builtNode cfg vd nodeName cp).privateIp]

/-- One tier of the replicated three-nodes topology over a 3-element
declared list: the declared instances become the three nodes
tier-1, tier-2, tier-3 in declaration order, with one connection test
per instance exactly when this is the first tier. -/
lemma genTierNodes_three (r : Remote) (cfg : Config)
    (hconn : ∀ ip, r.conn ip = true) (t : String) (validate : Bool)
    (a b c : VmDict) (ca cb cc : List (String × Option String))
    (ha : a.configPath3 = some ca) (hb : b.configPath3 = some cb)
    (hc : c.configPath3 = some cc) :
    genTierNodes r cfg t validate 0 [a, b, c] =
      .ok ([builtNode cfg a (t ++ "-" ++ toString 1)
              (lookupStr ca (t ++ "_config_path")),
            builtNode cfg b (t ++ "-" ++ toString 2)
              (lookupStr cb (t ++ "_config_path")),
            builtNode cfg c (t ++ "-" ++ toString 3)
              (lookupStr cc (t ++ "_config_path"))],
        (copyCertActs cfg a (t ++ "-" ++ toString 1) ++
          (if validate then
            [Action.testConnection (builtNode cfg a (t ++ "-" ++ toString 1)
              (lookupStr ca (t ++ "_config_path"))).privateIp]
          else [])) ++
        ((copyCertActs cfg b (t ++ "-" ++ toString 2) ++
          (if validate then
            [Action.testConnection (builtNode cfg b (t ++ "-" ++ toString 2)
              (lookupStr cb (t ++ "_config_path"))).privateIp]
          else [])) ++
        ((copyCertActs cfg c (t ++ "-" ++ toString 3) ++
          (if validate then
            [Action.testConnection (builtNode cfg c (t ++ "-" ++ toString 3)
              (lookupStr cc (t ++ "_config_path"))).privateIp]
          else [])) ++ []))) := by
  simp only [genTierNodes, ha, hb, hc, getCfyNode_ok r cfg hconn]

/-- The general-topology loop hits the KeyError of the first declared vm
whose name prefix is not a tier key, provided every earlier vm's prefix
is a tier key (tier keys are preserved along the loop). -/
lemma genGeneralLoop_keyError (r : Remote) (cfg : Config)
    (hconn : ∀ ip, r.conn ip = true) :
    ∀ (pre : List (String × VmDict)) (d : List (String × List CfyNode))
      (name : String) (vd : VmDict) (rest : List (String × VmDict)),
      (∀ p ∈ pre, namePrefix p.1 ∈ d.map Prod.fst) →
      namePrefix name ∉ d.map Prod.fst →
      genGeneralLoop r cfg (pre ++ (name, vd) :: rest) d =
        .error (.keyError (namePrefix name))
  | [], d, name, vd, rest => by
    intro _ hbad
    show genGeneralLoop r cfg ((name, vd) :: rest) d = _
    unfold genGeneralLoop
    rw [getCfyNode_conn r cfg vd name vd.configPath (hconn _)]
    dsimp only
    have htyp : (builtNode cfg vd name vd.configPath).typ = namePrefix name :=
      rfl
    rw [htyp]
    rw [appendToTier_notMem (namePrefix name)
      (builtNode cfg vd name vd.configPath) d
      (fun p hp hpk => hbad (by
        rw [← hpk]
        exact List.mem_map_of_mem Prod.fst hp))]
  | (q :: pre), d, name, vd, rest => by
    intro hpre hbad
    show genGeneralLoop r cfg (q :: (pre ++ (name, vd) :: rest)) d = _
    unfold genGeneralLoop
    rw [getCfyNode_conn r cfg q.2 q.1 q.2.configPath (hconn _)]
    dsimp only
    have htyp : (builtNode cfg q.2 q.1 q.2.configPath).typ = namePrefix q.1 :=
      rfl
    rw [htyp]
    obtain ⟨d2, hd2, hmap⟩ := appendToTier_mem (namePrefix q.1)
      (builtNode cfg q.2 q.1 q.2.configPath) d (hpre q (by simp))
    rw [hd2]
    dsimp only
    rw [genGeneralLoop_keyError r cfg hconn pre d2 name vd rest
      (fun p hp => by rw [hmap]; exact hpre p (by simp [hp]))
      (by rw [hmap]; exact hbad)]

/-! Validation only ever appends to the error list: every phase's output
list extends its input list, so a message recorded early survives to the
aggregated ValidationError. -/

/-- _check_value_provided extends the error list. -/
lemma checkValueProvided_extends (v : Option String) (key : String)
    (vm : Option String) (errs : List String) :
    errs <+: (checkValueProvided v key vm errs).2 := by
  unfold checkValueProvided
  by_cases h : truthy v = true <;> simp [h]

/-- _check_path extends the error list. -/
lemma checkPath_extends (env : LocalEnv) (v : Option String) (key : String)
    (vm : Option String) (errs : List String) :
    errs <+: (checkPath env v key vm errs).2 := by
  unfold checkPath
  cases hcv : checkValueProvided v key vm errs with
  | mk b errs2 =>
    have hp : errs <+: errs2 := by
      have := checkValueProvided_extends v key vm errs
      rw [hcv] at this
      exact this
    cases b with
    | false => exact hp
    | true =>
      by_cases hex : env.pathExists (v.getD "") = true
      · simp [hex]
        exact hp
      · simp [hex]
        exact hp.trans (List.prefix_append errs2 _)

/-- The config-path closure body extends the error list. -/
lemma validateOneConfigPath_extends (env : LocalEnv) (vmName : String)
    (cp : Option String) (acc : CPAcc) :
    acc.errs <+: (validateOneConfigPath env vmName cp acc).errs := by
  unfold validateOneConfigPath
  by_cases h : truthy cp = true
  · by_cases hex : env.pathExists (cp.getD "") = true <;> simp [h, hex]
  · by_cases hu : acc.usingConfigPaths && !acc.errorAdded <;> simp [h, hu]

/-- Folding the closure body over a config-path dictionary extends the
error list. -/
lemma foldConfigPaths_extends (env : LocalEnv) (vmName : String) :
    ∀ (cps : List (String × Option String)) (acc : CPAcc),
      acc.errs <+:
        (cps.foldl (fun a p => validateOneConfigPath env vmName p.2 a)
          acc).errs
  | [], acc => List.prefix_refl _
  | p :: cps, acc => by
    simp only [List.foldl_cons]
    exact (validateOneConfigPath_extends env vmName p.2 acc).trans
      (foldConfigPaths_extends env vmName cps _)

/-- _validate_config_paths extends the error list when it returns. -/
lemma validateConfigPaths_extends (env : LocalEnv) (usingThree : Bool) :
    ∀ (vms : List (String × VmDict)) (acc acc2 : CPAcc),
      validateConfigPaths env usingThree vms acc = .ok acc2 →
      acc.errs <+: acc2.errs
  | [], acc, acc2 => by
    intro h
    unfold validateConfigPaths at h
    injection h with h
    rw [h]
  | (vmName, vd) :: vms, acc, acc2 => by
    intro h
    unfold validateConfigPaths at h
    cases usingThree with
    | true =>
      simp only at h
      cases hcp : vd.configPath3 with
      | none => rw [hcp] at h; exact absurd h (by simp)
      | some cps =>
        rw [hcp] at h
        simp only at h
        exact (foldConfigPaths_extends env vmName cps acc).trans
          (validateConfigPaths_extends env true vms _ acc2 h)
    | false =>
      exact (validateOneConfigPath_extends env vmName vd.configPath acc).trans
        (validateConfigPaths_extends env false vms _ acc2 h)

/-- In general mode _validate_config_paths never raises. -/
lemma validateConfigPaths_general_ok (env : LocalEnv) :
    ∀ (vms : List (String × VmDict)) (acc : CPAcc),
      ∃ acc2, validateConfigPaths env false vms acc = .ok acc2
  | [], acc => ⟨acc, rfl⟩
  | (vmName, vd) :: vms, acc => by
    obtain ⟨acc2, h⟩ := validateConfigPaths_general_ok env vms
      (validateOneConfigPath env vmName vd.configPath acc)
    exact ⟨acc2, h⟩

/-- check_cert_path extends the error list. -/
lemma checkCertPathW_extends (env : LocalEnv) (cert : String)
    (errs : List String) : errs <+: (checkCertPathW env cert errs).2 := by
  unfold checkCertPathW
  by_cases h : env.certOk cert = true <;> simp [h]

/-- check_key_path extends the error list. -/
lemma checkKeyPathW_extends (env : LocalEnv) (key : String)
    (errs : List String) : errs <+: (checkKeyPathW env key errs).2 := by
  unfold checkKeyPathW
  by_cases h : env.keyOk key = true <;> simp [h]

/-- check_cert_key_match extends the error list. -/
lemma checkCertKeyMatchW_extends (env : LocalEnv) (cert key : String)
    (errs : List String) :
    errs <+: (checkCertKeyMatchW env cert key errs).2 := by
  unfold checkCertKeyMatchW
  cases hk : checkKeyPathW env key errs with
  | mk b errs2 =>
    have hp : errs <+: errs2 := by
      have := checkKeyPathW_extends env key errs
      rw [hk] at this
      exact this
    cases b with
    | false => exact hp
    | true =>
      by_cases hm : env.certKeyMatch cert key = true
      · simp [hm]
        exact hp
      · simp [hm]
        exact hp.trans (List.prefix_append errs2 _)

/-- check_signed_by extends the error list. -/
lemma checkSignedByW_extends (env : LocalEnv) (ca cert : String)
    (errs : List String) : errs <+: checkSignedByW env ca cert errs := by
  unfold checkSignedByW
  by_cases h : env.signedBy ca cert = true <;> simp [h]

/-- check_san extends the error list. -/
lemma checkSanW_extends (env : LocalEnv) (vmName cert : String)
    (errs : List String) : errs <+: checkSanW env vmName cert errs := by
  unfold checkSanW
  by_cases h : env.sanOk vmName cert = true <;> simp [h]

/-- The per-vm validation body extends the error list. -/
lemma validateOneVm_extends (env : LocalEnv) (cfg : Config) (caOk : Bool)
    (errs : List String) (p : String × VmDict) :
    errs <+: validateOneVm env cfg caOk errs p := by
  unfold validateOneVm
  have hpriv : errs <+:
      (if truthy p.2.privateIp = true then errs
       else errs ++ ["private_ip should be provided for " ++ p.1]) := by
    by_cases h : truthy p.2.privateIp = true <;> simp [h]
  set errs1 := if truthy p.2.privateIp = true then errs
    else errs ++ ["private_ip should be provided for " ++ p.1] with herrs1
  cases caOk with
  | false => exact hpriv
  | true =>
    simp only
    refine hpriv.trans ?_
    cases hkp : checkPath env p.2.keyPath "key_path" (some p.1) errs1 with
    | mk kb kerrs =>
      have h1 : errs1 <+: kerrs := by
        have := checkPath_extends env p.2.keyPath "key_path" (some p.1) errs1
        rw [hkp] at this
        exact this
      cases hcp : checkPath env p.2.certPath "cert_path" (some p.1) kerrs with
      | mk cb cerrs =>
        have h2 : kerrs <+: cerrs := by
          have := checkPath_extends env p.2.certPath "cert_path" (some p.1)
            kerrs
          rw [hcp] at this
          exact this
        cases cb with
        | false => simpa using h1.trans h2
        | true =>
          simp only
          cases hcv : checkCertPathW env (p.2.certPath.getD "") cerrs with
          | mk vb verrs =>
            have h3 : cerrs <+: verrs := by
              have := checkCertPathW_extends env (p.2.certPath.getD "") cerrs
              rw [hcv] at this
              exact this
            cases vb with
            | false => simpa using (h1.trans h2).trans h3
            | true =>
              simp only
              refine ((h1.trans h2).trans h3).trans ?_
              have h4 : verrs <+:
                  (if kb = true then
                    (checkCertKeyMatchW env (p.2.certPath.getD "")
                      (p.2.keyPath.getD "") verrs).2
                  else verrs) := by
                cases kb with
                | false => simp
                | true =>
                  simp only [if_pos rfl]
                  exact checkCertKeyMatchW_extends env _ _ verrs
              refine h4.trans ?_
              refine (checkSignedByW_extends env (cfg.caCertPath.getD "")
                (p.2.certPath.getD "") _).trans ?_
              exact checkSanW_extends env p.1 (p.2.certPath.getD "") _

/-- Folding the per-vm validation over the vm list extends the error
list. -/
lemma foldVms_extends (env : LocalEnv) (cfg : Config) (caOk : Bool) :
    ∀ (vms : List (String × VmDict)) (errs : List String),
      errs <+: vms.foldl (validateOneVm env cfg caOk) errs
  | [], errs => List.prefix_refl _
  | p :: vms, errs => by
    simp only [List.foldl_cons]
    exact (validateOneVm_extends env cfg caOk errs p).trans
      (foldVms_extends env cfg caOk vms _)

/-- _validate_external_db_config extends the error list. -/
lemma validateExternalDbConfig_extends (env : LocalEnv) (cfg : Config)
    (errs : List String) :
    errs <+: validateExternalDbConfig env cfg errs := by
  unfold validateExternalDbConfig
  cases cfg.externalDbConfiguration with
  | none => simp
  | some edb =>
    simp only
    have hfold : ∀ (l : List (String × Option String)) (e : List String),
        e <+: l.foldl (fun a kv => (checkValueProvided kv.2 kv.1 none a).2) e := by
      intro l
      induction l with
      | nil => intro e; exact List.prefix_refl _
      | cons kv l ih =>
        intro e
        simp only [List.foldl_cons]
        exact (checkValueProvided_extends kv.2 kv.1 none e).trans (ih _)
    have h2 := checkPath_extends env (lookupStr edb "ca_path") "ca_path" none
      (edb.foldl (fun a kv => (checkValueProvided kv.2 kv.1 none a).2) errs)
    exact (hfold edb errs).trans h2

/-- _validate_ldap_certificate_setting extends the error list when the
ldap section is present. -/
lemma validateLdap_extends (env : LocalEnv) (cfg : Config)
    (l : LdapConfig) (errs errs2 : List String)
    (hl : cfg.ldap = some l)
    (h : validateLdapCertificateSetting env cfg errs = .ok errs2) :
    errs <+: errs2 := by
  unfold validateLdapCertificateSetting at h
  rw [hl] at h
  simp only at h
  injection h with h
  subst h
  set ldaps := strStartsWith l.server "ldaps://" with hld
  set caCert : Bool := l.caCert != "" with hcc
  set errs1 :=
    (if ldaps && !caCert then
      errs ++ ["When using ldaps a CA certificate must be provided."]
    else if caCert && !ldaps then
      errs ++ ["When not using ldaps a CA certificate must not be provided."]
    else errs) with herrs1
  have h1 : errs <+: errs1 := by
    rw [herrs1]
    by_cases ha : (ldaps && !caCert) = true
    · simp [ha]
    · by_cases hb : (caCert && !ldaps) = true <;> simp [ha, hb]
  refine h1.trans ?_
  by_cases hc : (caCert && ldaps) = true
  · simp only [hc, if_pos]
    exact checkPath_extends env (some l.caCert) "ca_cert" none _
  · simp [hc]

/-- In general mode _validate_existing_vms returns, extending the error
list. -/
lemma validateExistingVms_general (env : LocalEnv) (cfg : Config)
    (errs : List String) :
    ∃ errs2, validateExistingVms env cfg false errs = .ok errs2 ∧
      errs <+: errs2 := by
  unfold validateExistingVms
  dsimp only
  set ca :=
    (if usingProvidedCertificates cfg = true then
      checkPath env cfg.caCertPath "ca_cert_path" none errs
    else (false, errs)) with hca
  have hpca : errs <+: ca.2 := by
    rw [hca]
    by_cases h : usingProvidedCertificates cfg = true
    · simp only [h, if_pos]
      exact checkPath_extends env cfg.caCertPath "ca_cert_path" none errs
    · simp [h]
  obtain ⟨acc2, hv⟩ := validateConfigPaths_general_ok env cfg.existingVms
    ⟨false, false, ca.2⟩
  rw [hv]
  refine ⟨_, rfl, ?_⟩
  have hp2 : ca.2 <+: acc2.errs :=
    validateConfigPaths_extends env false cfg.existingVms
      ⟨false, false, ca.2⟩ acc2 hv
  exact (hpca.trans hp2).trans
    (foldVms_extends env cfg ca.1 cfg.existingVms acc2.errs)

/-- _validate_ldap_certificate_setting returns when the ldap section is
present. -/
lemma validateLdap_ok (env : LocalEnv) (cfg : Config) (l : LdapConfig)
    (errs : List String) (hl : cfg.ldap = some l) :
    ∃ errs2, validateLdapCertificateSetting env cfg errs = .ok errs2 := by
  unfold validateLdapCertificateSetting
  rw [hl]
  exact ⟨_, rfl⟩

/-- With the ldap section present and two required fields missing, the
whole validation pass aggregates both messages into one ValidationError
(general mode). -/
lemma validateConfig_general_missing (env : LocalEnv) (cfg : Config)
    (l : LdapConfig) (hl : cfg.ldap = some l)
    (hssh : truthy cfg.sshUser = false)
    (hrpm : truthy cfg.managerRpmDownloadLink = false) :
    ∃ errs, validateConfig env cfg false = .error (.validationError errs) ∧
      "ssh_user is not provided" ∈ errs ∧
      "manager_rpm_download_link is not provided" ∈ errs := by
  have h2 : ∀ e : List String,
      checkValueProvided cfg.sshUser "ssh_user" none e =
        (false, e ++ ["ssh_user" ++ " is not provided" ++ suffixFor none]) := by
    intro e
    unfold checkValueProvided
    rw [hssh, if_neg (by simp)]
  have h4 : ∀ e : List String,
      checkValueProvided cfg.managerRpmDownloadLink
        "manager_rpm_download_link" none e =
        (false, e ++ ["manager_rpm_download_link" ++ " is not provided" ++
          suffixFor none]) := by
    intro e
    unfold checkValueProvided
    rw [hrpm, if_neg (by simp)]
  unfold validateConfig
  dsimp only
  rw [h2]
  dsimp only
  rw [h4]
  dsimp only
  set e1 := (checkPath env cfg.sshKeyPath "ssh_key_path" none []).2 with he1
  set e2 := e1 ++ ["ssh_user" ++ " is not provided" ++ suffixFor none]
    with he2
  set e3 := (checkPath env cfg.cloudifyLicensePath "cloudify_license_path"
    none e2).2 with he3
  set e4 := e3 ++ ["manager_rpm_download_link" ++ " is not provided" ++
    suffixFor none] with he4
  obtain ⟨e5, hev, hp45⟩ := validateExistingVms_general env cfg e4
  rw [hev]
  dsimp only
  obtain ⟨e7, hld7⟩ := validateLdap_ok env cfg l
    (validateExternalDbConfig env cfg e5) hl
  rw [hld7]
  dsimp only
  have hm1 : "ssh_user is not provided" ∈ e2 := by
    rw [he2]
    refine List.mem_append_right _ ?_
    decide
  have hm2 : "manager_rpm_download_link is not provided" ∈ e4 := by
    rw [he4]
    refine List.mem_append_right _ ?_
    decide
  have hp23 : e2 <+: e3 := by
    rw [he3]
    exact checkPath_extends env cfg.cloudifyLicensePath
      "cloudify_license_path" none e2
  have hp34 : e3 <+: e4 := by
    rw [he4]
    exact List.prefix_append e3 _
  have hp56 : e5 <+: validateExternalDbConfig env cfg e5 :=
    validateExternalDbConfig_extends env cfg e5
  have hp67 := validateLdap_extends env cfg l
    (validateExternalDbConfig env cfg e5) e7 hl hld7
  have hm1f : "ssh_user is not provided" ∈ e7 :=
    hp67.subset (hp56.subset (hp45.subset (hp34.subset (hp23.subset hm1))))
  have hm2f : "manager_rpm_download_link is not provided" ∈ e7 :=
    hp67.subset (hp56.subset (hp45.subset hm2))
  rw [if_neg (by
    intro hnil
    rw [hnil] at hm1f
    exact absurd hm1f (by simp))]
  exact ⟨e7, rfl, hm1f, hm2f⟩

/-! Lemmas for the override-reinstall scenario. -/

/-- The per-tier discovery loop when every node continues with a known
result. -/
lemma markList_mapped (env : LocalEnv) (r : Remote) (ctx : MarkCtx)
    (f : CfyNode → CfyNode) (g : CfyNode → List Action) :
    ∀ ns : List CfyNode,
      (∀ n ∈ ns, markNode env r ctx n = .ok (f n, true, g n)) →
      markList env r ctx ns = .ok (ns.map f, true, (ns.map g).flatten)
  | [] => by
    intro _
    rfl
  | n :: ns => by
    intro h
    unfold markList
    rw [h n (by simp)]
    rw [markList_mapped env r ctx f g ns (fun m hm => h m (by simp [hm]))]
    simp

/-- Discovery over the dictionary when every node continues with a known
result. -/
lemma markDict_mapped (env : LocalEnv) (r : Remote) (ctx : MarkCtx)
    (f : CfyNode → CfyNode) (g : CfyNode → List Action) :
    ∀ d : List (String × List CfyNode),
      (∀ t ∈ d, ∀ n ∈ t.2, markNode env r ctx n = .ok (f n, true, g n)) →
      markDict env r ctx d =
        .ok (d.map (fun t => (t.1, t.2.map f)), true,
          (d.map (fun t => (t.2.map g).flatten)).flatten)
  | [] => by
    intro _
    rfl
  | (t, ns) :: d => by
    intro h
    unfold markDict
    rw [markList_mapped env r ctx f g ns (h (t, ns) (by simp))]
    rw [markDict_mapped env r ctx f g d (fun p hp m hm => h p (by simp [hp]) m hm)]
    simp

/-- Under a fully-installed oracle the per-instance install body
succeeds and launches the install unit. -/
lemma installNode_launches (env : LocalEnv) (r : Remote) (link : String)
    (tnf : Bool) (n : CfyNode) (svc : String)
    (hinst : n.installed = false)
    (hrpm : (r.node n.name).rpm = ⟨false, rpmNameOf link⟩)
    (hst : ∀ k, (r.node n.name).status k = 4)
    (hsvc : namesMapping n.typ = some svc) :
    ∃ acts, installNode env r link tnf n = .ok acts ∧
      Action.launchInstall n.name ∈ acts := by
  have hf : (r.node n.name).rpm.failed = false := by rw [hrpm]
  have hm : (r.node n.name).rpm.stdout = rpmNameOf link := by rw [hrpm]
  have hver := verifyCloudify_status4 r n 0 svc (hst 0) hsvc
  unfold installNode
  rw [hinst]
  simp only [Bool.false_eq_true, if_neg]
  by_cases hskip : (n.privateIp = env.currentHostIp ∨ tnf = true)
  · rw [if_pos hskip]
    dsimp only
    rw [hver]
    exact ⟨_, rfl, by simp⟩
  · rw [if_neg hskip]
    rw [rpmWasInstalled_ok r n link false hf (Or.inl hm)]
    dsimp only
    rw [hver]
    exact ⟨_, rfl, by simp⟩

/-- The install loop over one tier launches every node when each node's
body succeeds with a launch. -/
lemma installList_launches (env : LocalEnv) (r : Remote) (link : String)
    (tnf : Bool) :
    ∀ ns : List CfyNode,
      (∀ n ∈ ns, ∃ acts, installNode env r link tnf n = .ok acts ∧
        Action.launchInstall n.name ∈ acts) →
      ∃ acts, installList env r link tnf ns = .ok acts ∧
        ∀ n ∈ ns, Action.launchInstall n.name ∈ acts
  | [] => by
    intro _
    exact ⟨[], rfl, by simp⟩
  | n :: ns => by
    intro h
    obtain ⟨a1, h1, hm1⟩ := h n (by simp)
    obtain ⟨a2, h2, hm2⟩ := installList_launches env r link tnf ns
      (fun m hm => h m (by simp [hm]))
    refine ⟨a1 ++ a2, ?_, ?_⟩
    · unfold installList
      rw [h1, h2]
    · intro m hm
      rcases List.mem_cons.mp hm with hm | hm
      · subst hm
        exact List.mem_append_left a2 hm1
      · exact List.mem_append_right a1 (hm2 m hm)

/-- The install loop over the dictionary launches every node when each
node's body succeeds with a launch for either staging mode. -/
lemma installDictFrom_launches (env : LocalEnv) (r : Remote) (link : String)
    (u : Bool) :
    ∀ (d : List (String × List CfyNode)) (i : Nat),
      (∀ t ∈ d, ∀ n ∈ t.2, ∀ tnf : Bool,
        ∃ acts, installNode env r link tnf n = .ok acts ∧
          Action.launchInstall n.name ∈ acts) →
      ∃ acts, installDictFrom env r link u i d = .ok acts ∧
        ∀ t ∈ d, ∀ n ∈ t.2, Action.launchInstall n.name ∈ acts
  | [], i => by
    intro _
    exact ⟨[], rfl, by simp⟩
  | (t, ns) :: d, i => by
    intro h
    obtain ⟨a1, h1, hm1⟩ := installList_launches env r link
      (u && decide (0 < i)) ns
      (fun n hn => h (t, ns) (by simp) n hn (u && decide (0 < i)))
    obtain ⟨a2, h2, hm2⟩ := installDictFrom_launches env r link u d (i + 1)
      (fun p hp n hn tnf => h p (by simp [hp]) n hn tnf)
    refine ⟨a1 ++ a2, ?_, ?_⟩
    · unfold installDictFrom
      dsimp only
      rw [h1, h2]
    · intro p hp n hn
      rcases List.mem_cons.mp hp with hp | hp
      · subst hp
        exact List.mem_append_left a2 (hm1 n hn)
      · exact List.mem_append_right a1 (hm2 p hp n hn)

/-! Claim theorems. -/

/-- C2: during resume discovery, a node whose unit reports status 0 is
polled at a fixed interval with the loop bounded at 600 polls: when the
first 600 polls all still answer 0 the run aborts with the fatal timeout
error — whatever nodes would come later, so none of them is evaluated —
and when the status resolves to a non-zero code at some poll within the
bound, no timeout error is raised for that node. -/
theorem spec_c2 :
    (∀ (env : LocalEnv) (r : Remote) (ctx : MarkCtx)
       (tiersPre preR : List (String × List CfyNode)) (acts0 : List Action)
       (t : String) (ns1 ns1R : List CfyNode) (acts1 : List Action)
       (n : CfyNode),
       markDict env r ctx tiersPre = .ok (preR, true, acts0) →
       markList env r ctx ns1 = .ok (ns1R, true, acts1) →
       (r.node n.name).rpm.failed = false →
       ((r.node n.name).rpm.stdout = rpmNameOf ctx.rpmDownloadLink ∨
        ctx.override = true) →
       (r.node n.name).status 0 = 0 →
       (∀ k, 1 ≤ k → k ≤ 600 → (r.node n.name).status k = 0) →
       ∀ (ns2 : List CfyNode) (tiersPost : List (String × List CfyNode)),
         markDict env r ctx (tiersPre ++ (t, ns1 ++ n :: ns2) :: tiersPost) =
           .error (.timeout n.name)) ∧
    (∀ (r : Remote) (n : CfyNode) (k : Nat),
       (r.node n.name).status 0 = 0 → 1 ≤ k → k ≤ 600 →
       (r.node n.name).status k ≠ 0 →
       (∀ j, 1 ≤ j → j < k → (r.node n.name).status j = 0) →
       cloudifyWasPreviouslyInstalledSuccessfully r n ≠
         .error (.timeout n.name)) := by
  constructor
  · intro env r ctx tiersPre preR acts0 t ns1 ns1R acts1 n
      hpre hns1 hf hm h0 hz ns2 tiersPost
    have hnode := markNode_timeout env r ctx n hf hm h0 hz
    have hlist : markList env r ctx (n :: ns2) = .error (.timeout n.name) := by
      unfold markList
      rw [hnode]
    have hlist2 : markList env r ctx (ns1 ++ n :: ns2) =
        .error (.timeout n.name) := by
      rw [markList_append env r ctx ns1 ns1R acts1 hns1 (n :: ns2), hlist]
    have hdict1 : markDict env r ctx ((t, ns1 ++ n :: ns2) :: tiersPost) =
        .error (.timeout n.name) := by
      unfold markDict
      rw [hlist2]
    rw [markDict_append env r ctx tiersPre preR acts0 hpre
      ((t, ns1 ++ n :: ns2) :: tiersPost), hdict1]
  · intro r n k h0 h1 h6 hk hz
    exact cwpis_not_timeout r n k h0 h1 h6 hk hz

/-- Witness for C2: a single-node cluster whose unit answers 0 forever
times out, and a node whose unit resolves to 4 at the first poll does not
raise the timeout. -/
theorem spec_c2_witness :
    markDict envW (remoteConst 0) ctxW [("postgresql", [nodeW])] =
      .error (.timeout "postgresql-1") ∧
    cloudifyWasPreviouslyInstalledSuccessfully remoteResolve nodeW ≠
      .error (.timeout "postgresql-1") := by
  constructor
  · exact spec_c2.1 envW (remoteConst 0) ctxW [] [] [] "postgresql" [] [] []
      nodeW rfl rfl rfl (Or.inl (by decide)) rfl (fun k _ _ => rfl) [] []
  · exact spec_c2.2 remoteResolve nodeW 1 rfl (by decide) (by decide)
      (by decide) (fun j hj1 hj2 => absurd (lt_of_le_of_lt hj1 hj2)
        (lt_irrefl 1))

/-- C3: a node (at any tier position reached by discovery) whose unit
reports status 3 has its failed installation removed (remote uninstall
plus reset of the failed unit), is left with installed = false, and halts
discovery there: the result and the trace are the same whatever nodes
come later, and those nodes keep their incoming flags untouched. -/
theorem spec_c3 (env : LocalEnv) (r : Remote) (ctx : MarkCtx)
    (tiersPre preR : List (String × List CfyNode)) (acts0 : List Action)
    (t : String) (ns1 ns1R : List CfyNode) (acts1 : List Action)
    (n : CfyNode)
    (hpre : markDict env r ctx tiersPre = .ok (preR, true, acts0))
    (hns1 : markList env r ctx ns1 = .ok (ns1R, true, acts1))
    (hf : (r.node n.name).rpm.failed = false)
    (hm : (r.node n.name).rpm.stdout = rpmNameOf ctx.rpmDownloadLink ∨
          ctx.override = true)
    (hs : (r.node n.name).status 0 = 3) :
    ∀ (ns2 : List CfyNode) (tiersPost : List (String × List CfyNode)),
      markDict env r ctx (tiersPre ++ (t, ns1 ++ n :: ns2) :: tiersPost) =
        .ok (preR ++ (t, ns1R ++ { n with installed := false } :: ns2)
               :: tiersPost,
             false,
             acts0 ++ (acts1 ++ [Action.queryRpm n.name,
               Action.queryStatus n.name, Action.runRemove n.name,
               Action.resetFailed n.name])) := by
  intro ns2 tiersPost
  have hnode := markNode_status3 env r ctx n hf hm hs
  have hlist : markList env r ctx (n :: ns2) =
      .ok ({ n with installed := false } :: ns2, false,
        [Action.queryRpm n.name, Action.queryStatus n.name,
         Action.runRemove n.name, Action.resetFailed n.name]) := by
    unfold markList
    rw [hnode]
  have hlist2 := markList_append env r ctx ns1 ns1R acts1 hns1 (n :: ns2)
  rw [hlist] at hlist2
  have hdict1 : markDict env r ctx ((t, ns1 ++ n :: ns2) :: tiersPost) =
      .ok ((t, ns1R ++ { n with installed := false } :: ns2) :: tiersPost,
        false,
        acts1 ++ [Action.queryRpm n.name, Action.queryStatus n.name,
          Action.runRemove n.name, Action.resetFailed n.name]) := by
    unfold markDict
    rw [hlist2]
  rw [markDict_append env r ctx tiersPre preR acts0 hpre
    ((t, ns1 ++ n :: ns2) :: tiersPost), hdict1]

/-- Witness for C3: a status-3 node is cleaned up, marked not installed,
and discovery stops with exactly the removal trace. -/
theorem spec_c3_witness :
    markDict envW (remoteConst 3) ctxW [("postgresql", [nodeW, nodeM])] =
      .ok ([("postgresql", [{ nodeW with installed := false }, nodeM])],
        false,
        [Action.queryRpm "postgresql-1", Action.queryStatus "postgresql-1",
         Action.runRemove "postgresql-1",
         Action.resetFailed "postgresql-1"]) := by
  exact spec_c3 envW (remoteConst 3) ctxW [] [] [] "postgresql" [] [] []
    nodeW rfl rfl rfl (Or.inl (by decide)) rfl [nodeM] []

/-- C4: discovery is strictly sequential, and at the first node whose
installable package is absent it stops entirely: after the single rpm
probe of that node, that node and every later node (in every remaining
tier) are returned with their flags untouched (still NOT_INSTALLED), and
the result is the same whatever those later nodes are, so none of them is
queried. -/
theorem spec_c4 (env : LocalEnv) (r : Remote) (ctx : MarkCtx)
    (tiersPre preR : List (String × List CfyNode)) (acts0 : List Action)
    (t : String) (ns1 ns1R : List CfyNode) (acts1 : List Action)
    (n : CfyNode)
    (hpre : markDict env r ctx tiersPre = .ok (preR, true, acts0))
    (hns1 : markList env r ctx ns1 = .ok (ns1R, true, acts1))
    (hf : (r.node n.name).rpm.failed = true) :
    ∀ (ns2 : List CfyNode) (tiersPost : List (String × List CfyNode)),
      markDict env r ctx (tiersPre ++ (t, ns1 ++ n :: ns2) :: tiersPost) =
        .ok (preR ++ (t, ns1R ++ n :: ns2) :: tiersPost, false,
             acts0 ++ (acts1 ++ [Action.queryRpm n.name])) := by
  intro ns2 tiersPost
  have hnode := markNode_rpmAbsent env r ctx n hf
  have hlist : markList env r ctx (n :: ns2) =
      .ok (n :: ns2, false, [Action.queryRpm n.name]) := by
    unfold markList
    rw [hnode]
  have hlist2 := markList_append env r ctx ns1 ns1R acts1 hns1 (n :: ns2)
  rw [hlist] at hlist2
  have hdict1 : markDict env r ctx ((t, ns1 ++ n :: ns2) :: tiersPost) =
      .ok ((t, ns1R ++ n :: ns2) :: tiersPost, false,
        acts1 ++ [Action.queryRpm n.name]) := by
    unfold markDict
    rw [hlist2]
  rw [markDict_append env r ctx tiersPre preR acts0 hpre
    ((t, ns1 ++ n :: ns2) :: tiersPost), hdict1]

/-- Witness for C4: discovery on a cluster whose first node lacks the rpm
stops after that single rpm query, leaving every node untouched. -/
theorem spec_c4_witness :
    markDict envW remoteAbsent ctxW
      [("postgresql", [nodeW]), ("manager", [nodeM])] =
      .ok ([("postgresql", [nodeW]), ("manager", [nodeM])], false,
        [Action.queryRpm "postgresql-1"]) := by
  exact spec_c4 envW remoteAbsent ctxW [] [] [] "postgresql" [] [] []
    nodeW rfl rfl rfl [] [("manager", [nodeM])]

/-- C5: a node reached by discovery whose recorded rpm identity differs
from the one about to be installed aborts the whole run with the
ClusterInstallError demanding manual uninstall when override was not
requested — whatever nodes come later — while with override the rpm
check never raises for that node. -/
theorem spec_c5 :
    (∀ (env : LocalEnv) (r : Remote) (ctx : MarkCtx)
       (tiersPre preR : List (String × List CfyNode)) (acts0 : List Action)
       (t : String) (ns1 ns1R : List CfyNode) (acts1 : List Action)
       (n : CfyNode),
       markDict env r ctx tiersPre = .ok (preR, true, acts0) →
       markList env r ctx ns1 = .ok (ns1R, true, acts1) →
       (r.node n.name).rpm.failed = false →
       (r.node n.name).rpm.stdout ≠ rpmNameOf ctx.rpmDownloadLink →
       ctx.override = false →
       ∀ (ns2 : List CfyNode) (tiersPost : List (String × List CfyNode)),
         markDict env r ctx (tiersPre ++ (t, ns1 ++ n :: ns2) :: tiersPost) =
           .error (.rpmMismatch n.privateIp)) ∧
    (∀ (r : Remote) (n : CfyNode) (link : String) (e : Err),
       rpmWasInstalled r n link true ≠ .error e) := by
  constructor
  · intro env r ctx tiersPre preR acts0 t ns1 ns1R acts1 n
      hpre hns1 hf hm hov ns2 tiersPost
    have hnode := markNode_mismatch env r ctx n hf hm hov
    have hlist : markList env r ctx (n :: ns2) =
        .error (.rpmMismatch n.privateIp) := by
      unfold markList
      rw [hnode]
    have hlist2 : markList env r ctx (ns1 ++ n :: ns2) =
        .error (.rpmMismatch n.privateIp) := by
      rw [markList_append env r ctx ns1 ns1R acts1 hns1 (n :: ns2), hlist]
    have hdict1 : markDict env r ctx ((t, ns1 ++ n :: ns2) :: tiersPost) =
        .error (.rpmMismatch n.privateIp) := by
      unfold markDict
      rw [hlist2]
    rw [markDict_append env r ctx tiersPre preR acts0 hpre
      ((t, ns1 ++ n :: ns2) :: tiersPost), hdict1]
  · intro r n link e
    exact rpmWasInstalled_override_ne_error r n link e

/-- Witness for C5: a conflicting rpm without override aborts the run;
with override the same node's rpm check does not raise. -/
theorem spec_c5_witness :
    markDict envW remoteMismatch ctxW [("postgresql", [nodeW, nodeM])] =
      .error (.rpmMismatch "10.0.0.1") ∧
    rpmWasInstalled remoteMismatch nodeW linkW true ≠
      .error (.rpmMismatch "10.0.0.1") := by
  constructor
  · exact spec_c5.1 envW remoteMismatch ctxW [] [] [] "postgresql" [] [] []
      nodeW rfl rfl rfl (by decide) rfl [nodeM] []
  · exact spec_c5.2 remoteMismatch nodeW linkW (.rpmMismatch "10.0.0.1")

/-- C9: resume discovery is idempotent: when a discovery pass returns a
classification, running the pass again on its own output (the remote
hosts answering every query identically, which the per-probe oracle
encodes) returns exactly the same classification, continuation flag and
trace. -/
theorem spec_c9 (env : LocalEnv) (r : Remote) (ctx : MarkCtx)
    (d dR : List (String × List CfyNode)) (c : Bool) (a : List Action)
    (h : markDict env r ctx d = .ok (dR, c, a)) :
    markDict env r ctx dR = .ok (dR, c, a) :=
  markDict_idem env r ctx d dR c a h

/-- Witness for C9: rerunning discovery on the output of a pass over a
previously installed node reproduces it. -/
theorem spec_c9_witness :
    markDict envW (remoteConst 4) ctxW
      [("postgresql", [{ nodeW with installed := true }])] =
      .ok ([("postgresql", [{ nodeW with installed := true }])], true,
        [Action.queryRpm "postgresql-1", Action.queryStatus "postgresql-1",
         Action.queryMarker "postgresql-1"]) := by
  exact spec_c9 envW (remoteConst 4) ctxW [("postgresql", [nodeW])]
    [("postgresql", [{ nodeW with installed := true }])] true
    [Action.queryRpm "postgresql-1", Action.queryStatus "postgresql-1",
     Action.queryMarker "postgresql-1"] (by decide)

/-- C1 counterexample: in the install-and-verify loop, a node whose
post-launch status is 4 with the completion marker absent does NOT abort
the run: the verification's boolean result is discarded by
_install_instances and the loop continues, launching the install of the
next node.  This refutes the claim that marker absence is a fatal
"status unknown" error. -/
theorem spec_c1_counterexample :
    installList envW remoteNoMarker linkW true [nodeW, nodeM] =
      .ok [Action.copyConfig "postgresql-1",
           Action.launchInstall "postgresql-1",
           Action.queryStatus "postgresql-1",
           Action.queryMarker "postgresql-1",
           Action.copyConfig "manager-1",
           Action.launchInstall "manager-1",
           Action.queryStatus "manager-1",
           Action.queryMarker "manager-1"] := by
  decide

/-- C1 amended: immediately after launching the install unit, the
verification queries the status once: code 3 raises the fatal "failed
installing" error naming the node; code 4 checks the completion marker
but its boolean result is discarded, so the loop proceeds to the next
node whether the marker is present or absent; any other code raises the
fatal "status unknown" error. -/
theorem spec_c1_amended (env : LocalEnv) (r : Remote) (link : String)
    (n : CfyNode) (rest : List CfyNode) (svc : String)
    (hinst : n.installed = false)
    (hsvc : namesMapping n.typ = some svc) :
    ((r.node n.name).status 0 = 3 →
      installList env r link true (n :: rest) =
        .error (.failedInstalling n.privateIp)) ∧
    ((r.node n.name).status 0 = 4 →
      installList env r link true (n :: rest) =
        match installList env r link true rest with
        | .error e => .error e
        | .ok acts =>
          .ok ([Action.copyConfig n.name, Action.launchInstall n.name,
                Action.queryStatus n.name, Action.queryMarker n.name] ++
            acts)) ∧
    ((r.node n.name).status 0 ≠ 3 → (r.node n.name).status 0 ≠ 4 →
      installList env r link true (n :: rest) =
        .error (.statusUnknown n.unitName)) := by
  have hcons : installList env r link true (n :: rest) =
      match installNode env r link true n with
      | .error e => .error e
      | .ok acts =>
        match installList env r link true rest with
        | .error e => .error e
        | .ok acts2 => .ok (acts ++ acts2) := rfl
  refine ⟨?_, ?_, ?_⟩
  · intro hs
    rw [hcons, installNode_tnf env r link n hinst,
      verifyCloudify_status3 r n 0 hs]
  · intro hs
    rw [hcons, installNode_tnf env r link n hinst,
      verifyCloudify_status4 r n 0 svc hs hsvc]
    cases hrest : installList env r link true rest with
    | error e => simp [hrest]
    | ok acts => simp [hrest]
  · intro h3 h4
    rw [hcons, installNode_tnf env r link n hinst,
      verifyCloudify_unknown r n 0 h3 h4]

/-- Witness for the amended C1: a node with post-launch status 4 and the
marker absent completes the loop (over an empty remainder) instead of
raising. -/
theorem spec_c1_witness :
    installList envW remoteNoMarker linkW true [nodeW] =
      .ok [Action.copyConfig "postgresql-1",
           Action.launchInstall "postgresql-1",
           Action.queryStatus "postgresql-1",
           Action.queryMarker "postgresql-1"] := by
  have h := (spec_c1_amended envW remoteNoMarker linkW nodeW []
    "database_service" rfl rfl).2.1 rfl
  simpa using h

/-- C10: in general mode, a declared node whose name prefix is not a key
of the topology mapping — any prefix other than postgresql, rabbitmq or
manager, and also postgresql itself when an external database is
configured (the key having been popped) — makes topology building fail
with an unhandled lookup error (KeyError) rather than a ValidationError,
provided every vm declared before it maps to an existing tier. -/
theorem spec_c10 (r : Remote) (cfg : Config)
    (pre : List (String × VmDict)) (name : String) (vd : VmDict)
    (rest : List (String × VmDict))
    (hconn : ∀ ip, r.conn ip = true)
    (hvms : cfg.existingVms = pre ++ (name, vd) :: rest)
    (hpre : ∀ p ∈ pre,
      namePrefix p.1 ∈ (getInstancesOrderedDict cfg).map Prod.fst)
    (hbad : namePrefix name ∉ (getInstancesOrderedDict cfg).map Prod.fst) :
    generateGeneralClusterDict r cfg = .error (.keyError (namePrefix name)) := by
  unfold generateGeneralClusterDict
  rw [hvms]
  rw [genGeneralLoop_keyError r cfg hconn pre (getInstancesOrderedDict cfg)
    name vd rest hpre hbad]

/-- C7: for every valid 3-element declared node list, replicated-mode
topology building yields exactly the tiers postgresql, rabbitmq, manager
in order (exactly rabbitmq, manager when an external database is
configured), each holding exactly the three nodes tier-1, tier-2, tier-3
in declaration order, and the connection of each physical instance is
tested exactly once (during its first role, in the first tier). -/
theorem spec_c7 (r : Remote) (cfg : Config) (v1 v2 v3 : String × VmDict)
    (c1 c2 c3 : List (String × Option String))
    (hvms : cfg.existingVms = [v1, v2, v3])
    (h1 : v1.2.configPath3 = some c1)
    (h2 : v2.2.configPath3 = some c2)
    (h3 : v3.2.configPath3 = some c3)
    (hconn : ∀ ip, r.conn ip = true) :
    isOkResult (generateThreeNodesClusterDict r cfg) = true ∧
    tierNamesOf (generateThreeNodesClusterDict r cfg) =
      (if hasExternalDb cfg then ["rabbitmq", "manager"]
       else ["postgresql", "rabbitmq", "manager"]) ∧
    tierNodeNamesOf (generateThreeNodesClusterDict r cfg) =
      (if hasExternalDb cfg then
        [["rabbitmq-1", "rabbitmq-2", "rabbitmq-3"],
         ["manager-1", "manager-2", "manager-3"]]
       else
        [["postgresql-1", "postgresql-2", "postgresql-3"],
         ["rabbitmq-1", "rabbitmq-2", "rabbitmq-3"],
         ["manager-1", "manager-2", "manager-3"]]) ∧
    testConnectionsOf (generateThreeNodesClusterDict r cfg) =
      [Action.testConnection (v1.2.privateIp.getD ""),
       Action.testConnection (v2.2.privateIp.getD ""),
       Action.testConnection (v3.2.privateIp.getD "")] := by
  have hmap : cfg.existingVms.map (fun p => p.2) = [v1.2, v2.2, v3.2] := by
    simp [hvms]
  by_cases hdb : hasExternalDb cfg = true
  · have hrb := genTierNodes_three r cfg hconn "rabbitmq" true
      v1.2 v2.2 v3.2 c1 c2 c3 h1 h2 h3
    have hmg := genTierNodes_three r cfg hconn "manager" false
      v1.2 v2.2 v3.2 c1 c2 c3 h1 h2 h3
    unfold generateThreeNodesClusterDict getInstancesOrderedDict
    rw [hmap, if_pos hdb]
    simp only [genThreeTiers]
    rw [hrb, hmg]
    dsimp only
    refine ⟨rfl, ?_, ?_, ?_⟩
    · simp [hdb, tierNamesOf]
    · simp only [hdb, if_pos]
      simp [tierNodeNamesOf, builtNode, mkCfyNode]
      decide
    · simp only [testConnectionsOf]
      by_cases hca : usingProvidedCertificates cfg = true <;>
        simp [copyCertActs, hca, builtNode, mkCfyNode]
  · have hpg := genTierNodes_three r cfg hconn "postgresql" true
      v1.2 v2.2 v3.2 c1 c2 c3 h1 h2 h3
    have hrb := genTierNodes_three r cfg hconn "rabbitmq" false
      v1.2 v2.2 v3.2 c1 c2 c3 h1 h2 h3
    have hmg := genTierNodes_three r cfg hconn "manager" false
      v1.2 v2.2 v3.2 c1 c2 c3 h1 h2 h3
    unfold generateThreeNodesClusterDict getInstancesOrderedDict
    rw [hmap, if_neg hdb]
    simp only [genThreeTiers]
    rw [hpg, hrb, hmg]
    dsimp only
    refine ⟨rfl, ?_, ?_, ?_⟩
    · simp [hdb, tierNamesOf]
    · simp only [hdb, if_neg]
      simp [tierNodeNamesOf, builtNode, mkCfyNode]
      decide
    · simp only [testConnectionsOf]
      by_cases hca : usingProvidedCertificates cfg = true <;>
        simp [copyCertActs, hca, builtNode, mkCfyNode]

/-- Witness for C7: a concrete three-nodes config without an external
database builds the full 3 x 3 topology with one connection test per
declared instance. -/
theorem spec_c7_witness :
    isOkResult (generateThreeNodesClusterDict (remoteConst 4) cfg3W)
      = true ∧
    tierNamesOf (generateThreeNodesClusterDict (remoteConst 4) cfg3W) =
      ["postgresql", "rabbitmq", "manager"] ∧
    tierNodeNamesOf (generateThreeNodesClusterDict (remoteConst 4) cfg3W) =
      [["postgresql-1", "postgresql-2", "postgresql-3"],
       ["rabbitmq-1", "rabbitmq-2", "rabbitmq-3"],
       ["manager-1", "manager-2", "manager-3"]] ∧
    testConnectionsOf (generateThreeNodesClusterDict (remoteConst 4) cfg3W) =
      [Action.testConnection "10.0.0.11", Action.testConnection "10.0.0.12",
       Action.testConnection "10.0.0.13"] := by
  exact spec_c7 (remoteConst 4) cfg3W ("node-1", vm1W) ("node-2", vm2W)
    ("node-3", vm3W) [] [] [] rfl rfl rfl rfl (fun ip => rfl)

/-- C8 counterexample: a config whose document has no ldap mapping makes
the validation-only run fail with an unhandled KeyError — not with the
ValidationError listing missing fields that the claim promises for every
config missing required fields. -/
theorem spec_c8_counterexample :
    installRun envW (remoteConst 4) cfgNoLdap false true =
      (.error (.keyError "ldap"), [Action.localRun "command -v yum"]) := by
  decide

/-- C8 amended: in validation-only mode the run never performs a remote
command nor a local staging write, for every input config; and for every
general-mode config whose document carries the ldap mapping, missing
required fields are all aggregated into a single ValidationError — here
witnessed by ssh_user and manager_rpm_download_link both reported — while
a config without the ldap mapping instead raises KeyError. -/
theorem spec_c8_amended :
    (∀ (env : LocalEnv) (r : Remote) (cfg : Config) (override : Bool)
       (a : Action), a ∈ (installRun env r cfg override true).2 →
       a.isRemote = false ∧ a.isLocalWrite = false) ∧
    (∀ (env : LocalEnv) (r : Remote) (cfg : Config) (override : Bool)
       (l : LdapConfig),
       env.yumPresent = true →
       cfg.ldap = some l →
       cfg.existingVms.length ≠ 3 →
       truthy cfg.sshUser = false →
       truthy cfg.managerRpmDownloadLink = false →
       isValidationError (installRun env r cfg override true).1 = true ∧
       "ssh_user is not provided" ∈
         validationErrorsOf (installRun env r cfg override true).1 ∧
       "manager_rpm_download_link is not provided" ∈
         validationErrorsOf (installRun env r cfg override true).1) := by
  constructor
  · intro env r cfg override a ha
    unfold installRun at ha
    by_cases hy : env.yumPresent = true
    · rw [hy] at ha
      dsimp only at ha
      cases hv : validateConfig env cfg (cfg.existingVms.length = 3) with
      | error e =>
        rw [hv] at ha
        simp at ha
        subst ha
        exact ⟨rfl, rfl⟩
      | ok u =>
        rw [hv] at ha
        simp at ha
        subst ha
        exact ⟨rfl, rfl⟩
    · simp only [Bool.not_eq_true] at hy
      rw [hy] at ha
      simp at ha
      subst ha
      exact ⟨rfl, rfl⟩
  · intro env r cfg override l hy hl hlen hssh hrpm
    have hdec : decide (cfg.existingVms.length = 3) = false :=
      decide_eq_false hlen
    obtain ⟨errs, hvc, hm1, hm2⟩ :=
      validateConfig_general_missing env cfg l hl hssh hrpm
    have hrun : installRun env r cfg override true =
        (.error (.validationError errs),
         [Action.localRun "command -v yum"]) := by
      unfold installRun
      rw [hy]
      simp only [Bool.not_true, Bool.false_eq_true, if_neg]
      have hvc2 : validateConfig env cfg (cfg.existingVms.length = 3) =
          .error (.validationError errs) := by
        show validateConfig env cfg (decide (cfg.existingVms.length = 3)) = _
        rw [hdec, hvc]
      rw [hvc2]
      simp
    rw [hrun]
    exact ⟨rfl, hm1, hm2⟩

/-- C6 counterexample: override=true on a fully previously-installed
three-nodes cluster removes and relaunches the install of every one of
the nine nodes, yet the final state after the install loop has
installed = false on every node — _install_instances never sets the
flag — refuting the claimed final state installed = true. -/
theorem spec_c6_counterexample :
    flagsOfResult (installRun envW (remoteConst 4) cfg3W true false).1 =
      [false, false, false, false, false, false, false, false, false] ∧
    (installRun envW (remoteConst 4) cfg3W true false).2.filter
        (fun a => match a with
          | Action.launchInstall _ => true
          | _ => false) =
      [Action.launchInstall "postgresql-1",
       Action.launchInstall "postgresql-2",
       Action.launchInstall "postgresql-3",
       Action.launchInstall "rabbitmq-1", Action.launchInstall "rabbitmq-2",
       Action.launchInstall "rabbitmq-3", Action.launchInstall "manager-1",
       Action.launchInstall "manager-2", Action.launchInstall "manager-3"] ∧
    (installRun envW (remoteConst 4) cfg3W true false).2.filter
        (fun a => match a with
          | Action.runRemove _ => true
          | _ => false) =
      [Action.runRemove "postgresql-1", Action.runRemove "postgresql-2",
       Action.runRemove "postgresql-3", Action.runRemove "rabbitmq-1",
       Action.runRemove "rabbitmq-2", Action.runRemove "rabbitmq-3",
       Action.runRemove "manager-1", Action.runRemove "manager-2",
       Action.runRemove "manager-3"] := by
  refine ⟨by decide, by decide, by decide⟩

/-- C6 amended: with override requested on a cluster whose every node
was previously installed successfully, discovery removes the
installation from every node and resets every installed flag to false,
and the install loop then relaunches the install of every node — but the
install loop never updates the flags, so the final state after it still
has installed = false on every node. -/
theorem spec_c6_amended (env : LocalEnv) (r : Remote) (link : String)
    (u : Bool) (d : List (String × List CfyNode))
    (hrpm : ∀ t ∈ d, ∀ n ∈ t.2,
      (r.node n.name).rpm = ⟨false, rpmNameOf link⟩)
    (hst : ∀ t ∈ d, ∀ n ∈ t.2, ∀ k, (r.node n.name).status k = 4)
    (hfe : ∀ t ∈ d, ∀ n ∈ t.2, ∀ p, (r.node n.name).fileExists p = true)
    (hsvc : ∀ t ∈ d, ∀ n ∈ t.2, ∃ svc, namesMapping n.typ = some svc) :
    markDict env r ⟨link, true⟩ d =
      .ok (d.map (fun t =>
            (t.1, t.2.map (fun n => { n with installed := false }))),
        true,
        (d.map (fun t => (t.2.map (fun n =>
          [Action.queryRpm n.name, Action.queryStatus n.name,
           Action.queryMarker n.name] ++
          (removeCloudifyInstallation env r
            { n with installed := true }).2)).flatten)).flatten) ∧
    (∀ t ∈ d, ∀ n ∈ t.2, Action.runRemove n.name ∈
      (d.map (fun t => (t.2.map (fun n =>
        [Action.queryRpm n.name, Action.queryStatus n.name,
         Action.queryMarker n.name] ++
        (removeCloudifyInstallation env r
          { n with installed := true }).2)).flatten)).flatten) ∧
    (∀ t ∈ d.map (fun t =>
        (t.1, t.2.map (fun n => { n with installed := false }))),
      ∀ n ∈ t.2, n.installed = false) ∧
    isOkResult (installInstances env r link u (d.map (fun t =>
      (t.1, t.2.map (fun n => { n with installed := false }))))) = true ∧
    (∀ t ∈ d.map (fun t =>
        (t.1, t.2.map (fun n => { n with installed := false }))),
      ∀ n ∈ t.2, Action.launchInstall n.name ∈
        actsOf (installInstances env r link u (d.map (fun t =>
          (t.1, t.2.map (fun n => { n with installed := false })))))) := by
  have hnode : ∀ t ∈ d, ∀ n ∈ t.2,
      markNode env r ⟨link, true⟩ n =
        .ok ({ n with installed := false }, true,
          [Action.queryRpm n.name, Action.queryStatus n.name,
           Action.queryMarker n.name] ++
          (removeCloudifyInstallation env r
            { n with installed := true }).2) := by
    intro t ht n hn
    obtain ⟨svc, hs⟩ := hsvc t ht n hn
    exact markNode_installed_override env r ⟨link, true⟩ n svc
      (by rw [hrpm t ht n hn]) (Or.inl (by rw [hrpm t ht n hn]))
      (hst t ht n hn 0) hs (hfe t ht n hn _) rfl
  have hmark := markDict_mapped env r ⟨link, true⟩
    (fun n => { n with installed := false })
    (fun n => [Action.queryRpm n.name, Action.queryStatus n.name,
      Action.queryMarker n.name] ++
      (removeCloudifyInstallation env r { n with installed := true }).2)
    d hnode
  have hlaunch : ∀ t ∈ d.map (fun t =>
      (t.1, t.2.map (fun n => { n with installed := false }))),
      ∀ m ∈ t.2, ∀ tnf : Bool,
        ∃ acts, installNode env r link tnf m = .ok acts ∧
          Action.launchInstall m.name ∈ acts := by
    intro tp htp m hm tnf
    rw [List.mem_map] at htp
    obtain ⟨t, ht, htp2⟩ := htp
    subst htp2
    simp only at hm
    rw [List.mem_map] at hm
    obtain ⟨n, hn, hm2⟩ := hm
    subst hm2
    obtain ⟨svc, hs⟩ := hsvc t ht n hn
    exact installNode_launches env r link tnf
      { n with installed := false } svc rfl (hrpm t ht n hn)
      (hst t ht n hn) hs
  obtain ⟨iacts, hinst, hmem⟩ := installDictFrom_launches env r link u
    (d.map (fun t => (t.1, t.2.map (fun n => { n with installed := false }))))
    0 hlaunch
  refine ⟨hmark, ?_, ?_, ?_, ?_⟩
  · intro t ht n hn
    refine List.mem_flatten.mpr ⟨(t.2.map (fun n =>
      [Action.queryRpm n.name, Action.queryStatus n.name,
       Action.queryMarker n.name] ++
      (removeCloudifyInstallation env r
        { n with installed := true }).2)).flatten, ?_, ?_⟩
    · exact List.mem_map_of_mem _ ht
    · refine List.mem_flatten.mpr ⟨_, List.mem_map_of_mem _ hn, ?_⟩
      refine List.mem_append_right _ ?_
      unfold removeCloudifyInstallation
      simp
  · intro tp htp n hn
    rw [List.mem_map] at htp
    obtain ⟨t, _, htp2⟩ := htp
    subst htp2
    simp only at hn
    rw [List.mem_map] at hn
    obtain ⟨m, _, hn2⟩ := hn
    subst hn2
    rfl
  · unfold installInstances
    rw [hinst]
    rfl
  · intro tp htp n hn
    unfold installInstances
    rw [hinst]
    exact hmem tp htp n hn

/-- Witness for the amended C6: a concrete previously-installed cluster
is removed, reset to installed = false, and relaunched. -/
theorem spec_c6_witness :
    markDict envW (remoteConst 4) ⟨linkW, true⟩ [("postgresql", [nodeW])] =
      .ok ([("postgresql", [{ nodeW with installed := false }])], true,
        [Action.queryRpm "postgresql-1", Action.queryStatus "postgresql-1",
         Action.queryMarker "postgresql-1",
         Action.runRemove "postgresql-1"]) ∧
    isOkResult (installInstances envW (remoteConst 4) linkW false
      [("postgresql", [{ nodeW with installed := false }])]) = true := by
  have h := spec_c6_amended envW (remoteConst 4) linkW false
    [("postgresql", [nodeW])]
    (by
      intro t ht n hn
      rw [List.mem_singleton] at ht
      subst ht
      simp only at hn
      rw [List.mem_singleton] at hn
      subst hn
      rfl)
    (by
      intro t ht n hn k
      rw [List.mem_singleton] at ht
      subst ht
      simp only at hn
      rw [List.mem_singleton] at hn
      subst hn
      rfl)
    (by
      intro t ht n hn p
      rw [List.mem_singleton] at ht
      subst ht
      simp only at hn
      rw [List.mem_singleton] at hn
      subst hn
      rfl)
    (by
      intro t ht n hn
      rw [List.mem_singleton] at ht
      subst ht
      simp only at hn
      rw [List.mem_singleton] at hn
      subst hn
      exact ⟨"database_service", rfl⟩)
  exact ⟨h.1, h.2.2.2.1⟩

/-- Witness for the amended C8: the single local action of a concrete
validation-only run is neither remote nor a write, and a concrete
general-mode config missing ssh_user and the rpm link aggregates both
messages. -/
theorem spec_c8_witness :
    ((Action.localRun "command -v yum").isRemote = false ∧
     (Action.localRun "command -v yum").isLocalWrite = false) ∧
    (isValidationError
        (installRun envW (remoteConst 4) cfgMissing false true).1 = true ∧
     "ssh_user is not provided" ∈ validationErrorsOf
        (installRun envW (remoteConst 4) cfgMissing false true).1 ∧
     "manager_rpm_download_link is not provided" ∈ validationErrorsOf
        (installRun envW (remoteConst 4) cfgMissing false true).1) := by
  constructor
  · exact spec_c8_amended.1 envW (remoteConst 4) cfg3W false
      (Action.localRun "command -v yum") (by decide)
  · exact spec_c8_amended.2 envW (remoteConst 4) cfgMissing false
      { server := "", caCert := "" } rfl rfl (by decide) rfl rfl

/-- Witness for C10: with an external database configured, a vm named
postgresql-1 makes general-mode topology building raise KeyError
"postgresql". -/
theorem spec_c10_witness :
    generateGeneralClusterDict (remoteConst 4) cfgC10 =
      .error (.keyError "postgresql") := by
  exact spec_c10 (remoteConst 4) cfgC10 [] "postgresql-1" vmW []
    (fun ip => rfl) rfl (by simp) (by decide)

end ClusterSetup
